import Mathlib

/-!
nest2img: a shallow embedding of `main.go`.

The program drives a three-step HTTP exchange (login, camera listing, snapshot) and
writes the snapshot to a file.  Everything outside the program (the HTTP client, the
JSON and image codecs, the clock, `os.Create`) is a field of `World`; the program's own
control flow, checks, format strings and request construction are embedded from the
source.  Go strings are embedded as Lean strings, read through their character lists.
-/

namespace Nest2img

/-! ## `fmt` -/

/-- Expansion of a format string over already rendered arguments: each verb among
`%s`, `%d`, `%v` and `%+v` consumes the next argument, every other character is copied. -/
def SprintfAux : List Char → List String → List Char
  | '%' :: '+' :: 'v' :: rest, a :: as => a.data ++ SprintfAux rest as
  | '%' :: 's' :: rest, a :: as => a.data ++ SprintfAux rest as
  | '%' :: 'd' :: rest, a :: as => a.data ++ SprintfAux rest as
  | '%' :: 'v' :: rest, a :: as => a.data ++ SprintfAux rest as
  | c :: rest, as => c :: SprintfAux rest as
  | [], _ => []

/-- Model of `fmt.Sprintf` for the verbs this program uses. -/
def Sprintf (format : String) (args : List String) : String :=
  String.mk (SprintfAux format.data args)

/-! ## `strings` and `net/url` -/

/-- Model of `strings.HasSuffix`:
`len(s) >= len(suffix) && s[len(s)-len(suffix):] == suffix`. -/
def HasSuffix (s suffix : String) : Bool :=
  decide (s.data.length ≥ suffix.data.length) &&
    (s.data.drop (s.data.length - suffix.data.length) == suffix.data)

/-- Characters left alone by `url.QueryEscape` (`shouldEscape` in mode
`encodeQueryComponent` is false): ASCII letters, digits, and `-`, `_`, `.`, `~`. -/
def shouldEscape (c : Char) : Bool :=
  if (97 ≤ c.toNat && c.toNat ≤ 122) || (65 ≤ c.toNat && c.toNat ≤ 90) ||
      (48 ≤ c.toNat && c.toNat ≤ 57) then false
  else if c = '-' || c = '_' || c = '.' || c = '~' then false
  else true

/-- The digit table `upperhex` of `net/url`. -/
def upperhex (n : Nat) : Char :=
  "0123456789ABCDEF".data.getD n '0'

/-- Escape of one character: kept when unreserved, `+` for a space, else `%XX` for each
byte of its UTF-8 encoding. -/
def escapeChar (c : Char) : List Char :=
  if !shouldEscape c then [c]
  else if c = ' ' then ['+']
  else (String.utf8EncodeChar c).flatMap
    (fun b => ['%', upperhex (b.toNat / 16), upperhex (b.toNat % 16)])

/-- Model of `url.QueryEscape`. -/
def QueryEscape (s : String) : String :=
  String.mk (s.data.flatMap escapeChar)

/-- Model of `url.Values` (`map[string][]string`): an association list with distinct keys. -/
abbrev Values := List (String × List String)

/-- Map assignment `v[key] = vals`. -/
def Values.set (v : Values) (key : String) (vals : List String) : Values :=
  (key, vals) :: v.filter (fun p => p.1 != key)

/-- Byte-wise order on strings, as used by `slices.Sort` on `[]string`. -/
def strLE : List Char → List Char → Bool
  | [], _ => true
  | _ :: _, [] => false
  | a :: as, b :: bs => if a.toNat < b.toNat then true else if b.toNat < a.toNat then false else strLE as bs

/-- Insertion of a key into a sorted key list. -/
def insertKey (k : String) : List String → List String
  | [] => [k]
  | x :: xs => if strLE k.data x.data then k :: x :: xs else x :: insertKey k xs

/-- Model of `slices.Sort(keys)`. -/
def sortKeys (keys : List String) : List String :=
  keys.foldr insertKey []

/-- Model of `url.Values.Encode`: keys in sorted order; for each value of a key the buffer
gets a `&` when it is not empty, then the escaped key, `=`, and the escaped value. -/
def Values.Encode (v : Values) : String :=
  (sortKeys (v.map (fun p => p.1))).foldl
    (fun buf k =>
      ((v.lookup k).getD []).foldl
        (fun buf val =>
          (if buf.data.length > 0 then buf ++ "&" else buf) ++ QueryEscape k ++ "=" ++ QueryEscape val)
        buf)
    ""

/-! ## Data model -/

/-- A Go `error`: built by `fmt.Errorf` in this program from a format and its rendered
arguments, or handed back by a library call (`net/http`, `io`, `encoding/json`, `image/*`,
`os`), of which the message is kept. -/
inductive error where
  | Errorf (format : String) (args : List String)
  | lib (msg : String)
deriving DecidableEq, Repr

/-- Method `Error()` of an error. -/
def error.Error : error → String
  | .Errorf format args => Sprintf format args
  | .lib msg => msg

/-- The message template of an error made by `fmt.Errorf`; library errors have none. -/
def error.kind : error → Option String
  | .Errorf format _ => some format
  | .lib _ => none

structure loginResponseItem where
  SessionToken : String
deriving DecidableEq, Repr

structure loginResponse where
  Status : Int
  Items : List loginResponseItem
  StatusDescription : String
  StatusDetail : String
deriving DecidableEq, Repr

structure getCamerasResponeItem where
  Name : String
  UUID : String
  NexusAPINestDomainHost : String
deriving DecidableEq, Repr

structure getCamerasResponse where
  Status : Int
  Items : List getCamerasResponeItem
  StatusDescription : String
  StatusDetail : String
deriving DecidableEq, Repr

/-- Rendering of a login response item under the verb `%+v`. -/
def loginResponseItem.plusV (i : loginResponseItem) : String :=
  "\x7bSessionToken:" ++ i.SessionToken ++ "\x7d"

/-- Rendering of a login response under the verb `%+v`. -/
def loginResponse.plusV (r : loginResponse) : String :=
  "\x7bStatus:" ++ toString r.Status ++ " Items:[" ++
    " ".intercalate (r.Items.map loginResponseItem.plusV) ++
    "] StatusDescription:" ++ r.StatusDescription ++ " StatusDetail:" ++ r.StatusDetail ++ "\x7d"

/-- Rendering of a camera item under the verb `%+v`. -/
def getCamerasResponeItem.plusV (i : getCamerasResponeItem) : String :=
  "\x7bName:" ++ i.Name ++ " UUID:" ++ i.UUID ++
    " NexusAPINestDomainHost:" ++ i.NexusAPINestDomainHost ++ "\x7d"

/-- Rendering of a camera listing under the verb `%+v`. -/
def getCamerasResponse.plusV (r : getCamerasResponse) : String :=
  "\x7bStatus:" ++ toString r.Status ++ " Items:[" ++
    " ".intercalate (r.Items.map getCamerasResponeItem.plusV) ++
    "] StatusDescription:" ++ r.StatusDescription ++ " StatusDetail:" ++ r.StatusDetail ++ "\x7d"

/-- An in-memory raster (`image.Image`). -/
structure Image where
  Width : Nat
  Height : Nat
  Pix : List Nat
deriving DecidableEq, Repr

structure Cookie where
  Name : String
  Value : String
deriving DecidableEq, Repr

/-- The parts of an `http.Request` this program sets. -/
structure Request where
  Method : String
  URL : String
  Header : List (String × String)
  Cookies : List Cookie
  Body : Option String
deriving DecidableEq, Repr

/-- The parts of an `http.Response` this program reads; `Body` is what reading the body
to its end yields. -/
structure Response where
  StatusCode : Int
  Status : String
  Body : Except String String

/-- The file system: a map from path to optional contents. -/
abbrev FS := String → Option String

/-- Assignment of contents to one path. -/
def FS.write (fs : FS) (path : String) (contents : String) : FS :=
  fun p => if p = path then some contents else fs p

/-- Everything outside the program.  A library call that fails gives the message of its
error; the program sees it as `error.lib`. -/
structure World where
  /-- Value of `time.Now().Unix()`. -/
  now : Int
  /-- Error of `http.NewRequest(method, url, body)`, if it has one. -/
  NewRequest : String → String → Option String
  /-- Result of `httpCli.Do(req)`. -/
  Do : Request → Except String Response
  /-- Result of `json.Unmarshal` into a `loginResponse`. -/
  UnmarshalLogin : String → Except String loginResponse
  /-- Result of `json.Unmarshal` into a `getCamerasResponse`. -/
  UnmarshalCameras : String → Except String getCamerasResponse
  /-- Result of `jpeg.Decode` on a response body. -/
  jpegDecode : Except String String → Except String Image
  /-- Error of `os.Create(path)` on a file system, if it has one. -/
  Create : FS → String → Option String
  /-- Bytes `png.Encode` writes and the error it returns, if any. -/
  pngEncode : Image → String × Option String
  /-- Bytes `jpeg.Encode` writes and the error it returns, if any. -/
  jpegEncode : Image → String × Option String

/-- The four stages `main` calls, with their arguments. -/
inductive Call where
  | login (password cameraToken : String)
  | getCameras (sessionToken cameraToken : String)
  | getImage (sessionToken apiURL cameraUUID : String) (imageWidth : Int)
  | saveImage (outFile : String)
deriving DecidableEq, Repr

inductive Format where
  | PNG
  | JPEG
deriving DecidableEq, Repr

/-- What a run does that can be seen from outside, in order. -/
inductive Event where
  /-- Entry into a stage. -/
  | call (c : Call)
  /-- A request sent by `httpCli.Do` and what came back. -/
  | http (req : Request) (res : Except String Response)
  /-- A call of `os.Create`. -/
  | create (path : String)
  /-- A call of an image encoder on the output file. -/
  | encode (format : Format)

/-- Process state: the globals `debug` and `quiet`, standard output (one entry per
`fmt.Printf`), the file system, and the events so far (oldest first). -/
structure State where
  debug : Bool
  quiet : Bool
  stdout : List String
  fs : FS
  trace : List Event

/-- State at process start: the globals at their declared values, nothing printed. -/
def State.init (fs : FS) : State :=
  { debug := false, quiet := false, stdout := [], fs := fs, trace := [] }

/-- Outcome of a computation: it returns, or the process ends with an exit status. -/
inductive Result (α : Type) where
  | ret (a : α) (s : State)
  | exit (code : Int) (s : State)

/-- State at the end of a computation. -/
def Result.state {α : Type} : Result α → State
  | .ret _ s => s
  | .exit _ s => s

/-- Exit status of the process when the computation is the whole of `main`. -/
def Result.exitCode {α : Type} : Result α → Int
  | .ret _ _ => 0
  | .exit code _ => code

/-- Computations over the process state. -/
def Proc (α : Type) : Type := State → Result α

/-- Sequencing: nothing runs after the process has ended. -/
def Proc.bind {α β : Type} (m : Proc α) (f : α → Proc β) : Proc β :=
  fun s => match m s with
    | .ret a s1 => f a s1
    | .exit code s1 => .exit code s1

instance : Monad Proc where
  pure a := fun s => .ret a s
  bind := Proc.bind

/-- Model of `fmt.Printf`. -/
def Printf (format : String) (args : List String) : Proc Unit :=
  fun s => .ret () { s with stdout := s.stdout ++ [Sprintf format args] }

/-- Model of `os.Exit`. -/
def osExit {α : Type} (code : Int) : Proc α :=
  fun s => .exit code s

/-- A Go run-time panic (nil dereference, index out of range): exit status 2. -/
def goPanic {α : Type} : Proc α :=
  fun s => .exit 2 s

/-- Read of the process state. -/
def getState : Proc State :=
  fun s => .ret s s

/-- Recording of an event. -/
def emit (e : Event) : Proc Unit :=
  fun s => .ret () { s with trace := s.trace ++ [e] }

/-! ## Logging -/

def logInfo (msg : String) : Proc Unit := do
  if !(← getState).quiet then
    Printf "[INFO]: %s\n" [msg]

def logDebug (msg : String) : Proc Unit := do
  let s ← getState
  if s.debug && !s.quiet then
    Printf "[DEBUG]: %s\n" [msg]

def logError (msg : String) (debugMsg : String) (fatal : Bool) : Proc Unit := do
  let s ← getState
  if s.debug && debugMsg != "" && !s.quiet then
    Printf "[ERROR]: %s - %s\n" [msg, debugMsg]
  else if !s.quiet then
    Printf "[ERROR]: %s\n" [msg]
  if fatal then
    osExit 1

/-! ## The program -/

def baseNestHost : String := "video.nest.com"
def loginEndpoint : String := "/api/dropcam/share.login"
def loginContentType : String := "application/x-www-form-urlencoded"
def getCamerasEndpoint : String := "/api/dropcam/cameras.get_by_public_token"
def getImageEndpoint : String := "/get_image"
def sessionCookieName : String := "website_2"

/-- The parsed command-line flags. -/
structure Flags where
  cameraToken : String
  password : String
  outFile : String
  imageWidth : Int
  debug : Bool
  quiet : Bool

/-- Model of `httpCli.Do(req)`: the request and its result are recorded. -/
def httpDo (w : World) (req : Request) : Proc (Except String Response) := do
  emit (.http req (w.Do req))
  pure (w.Do req)

/-- The form data `login` builds. -/
def loginFormData (password cameraToken : String) : Values :=
  let formData : Values := [("token", [cameraToken])]
  if password != "" then formData.set "password" [password] else formData

/-- The request `login` builds. -/
def loginRequest (password cameraToken : String) : Request :=
  { Method := "POST"
    URL := Sprintf "https://%s%s" [baseNestHost, loginEndpoint]
    Header := [("Content-Type", loginContentType),
      ("Referer", Sprintf "https://%s/live/%s" [baseNestHost, cameraToken])]
    Cookies := []
    Body := some (loginFormData password cameraToken).Encode }

def login (w : World) (password cameraToken : String) : Proc (Except error loginResponse) := do
  emit (.call (.login password cameraToken))
  logInfo "creating new login session"
  let url := Sprintf "https://%s%s" [baseNestHost, loginEndpoint]
  match w.NewRequest "POST" url with
  | some err => pure (.error (.lib err))
  | none =>
    let req := loginRequest password cameraToken
    logDebug (Sprintf "making POST request to %s" [url])
    match ← httpDo w req with
    | .error err => pure (.error (.lib err))
    | .ok resp =>
      if resp.StatusCode ≠ 200 then
        pure (.error (.Errorf "non-200 status returned by server: %s" [resp.Status]))
      else
        match resp.Body with
        | .error err => pure (.error (.lib err))
        | .ok respRaw =>
          logDebug (Sprintf "got JSON login response from server: %s" [respRaw])
          match w.UnmarshalLogin respRaw with
          | .error err => pure (.error (.lib err))
          | .ok loginInfo =>
            if loginInfo.StatusDescription ≠ "ok" ∨ loginInfo.Items.length ≠ 1 then
              pure (.error (.Errorf "got unexpected json response from server: %+v"
                [loginInfo.plusV]))
            else do
              logInfo "successfully created login session"
              pure (.ok loginInfo)

/-- Model of `validCookieValueByte` of `net/http`: a byte from 0x20 up to 0x7e other than
the double quote (34), the semicolon (59) and the backslash (92). -/
def validCookieValueByte (c : Char) : Bool :=
  32 ≤ c.toNat && c.toNat < 127 && c.toNat != 34 && c.toNat != 59 && c.toNat != 92

/-- Model of `sanitizeCookieValue` of `net/http`: the invalid bytes are dropped, and a
value that is not empty and has a space or a comma is put between double quotes. -/
def sanitizeCookieValue (v : String) : String :=
  let kept := v.data.filter validCookieValueByte
  if kept.length = 0 then String.mk kept
  else if kept.any (fun c => c.toNat == 32 || c.toNat == 44) then
    String.mk (Char.ofNat 34 :: kept ++ [Char.ofNat 34])
  else String.mk kept

/-- Model of `sanitizeCookieName` of `net/http`: line breaks become `-`. -/
def sanitizeCookieName (n : String) : String :=
  String.mk (n.data.map (fun c => if c.toNat == 10 || c.toNat == 13 then '-' else c))

/-- Model of `(*http.Request).AddCookie`: the cookie is added with its name and value
sanitised. -/
def Request.AddCookie (req : Request) (c : Cookie) : Request :=
  { req with
    Cookies := req.Cookies ++
      [{ Name := sanitizeCookieName c.Name, Value := sanitizeCookieValue c.Value }] }

/-- The request `getCameras` builds. -/
def getCamerasRequest (w : World) (sessionToken cameraToken : String) : Request :=
  Request.AddCookie
    { Method := "GET"
      URL := Sprintf "https://%s%s?token=%s&_=%d"
        [baseNestHost, getCamerasEndpoint, cameraToken, toString w.now]
      Header := []
      Cookies := []
      Body := none }
    { Name := sessionCookieName, Value := sessionToken }

def getCameras (w : World) (sessionToken cameraToken : String) :
    Proc (Except error getCamerasResponse) := do
  emit (.call (.getCameras sessionToken cameraToken))
  logInfo "getting camera(s)"
  let req := getCamerasRequest w sessionToken cameraToken
  match w.NewRequest "GET" req.URL with
  | some err => pure (.error (.lib err))
  | none =>
    logDebug (Sprintf "making GET request to %s" [req.URL])
    match ← httpDo w req with
    | .error err => pure (.error (.lib err))
    | .ok resp =>
      if resp.StatusCode ≠ 200 then
        pure (.error (.Errorf "non-200 status returned by server: %s" [resp.Status]))
      else
        match resp.Body with
        | .error err => pure (.error (.lib err))
        | .ok respRaw =>
          logDebug (Sprintf "got JSON login response from server: %s" [respRaw])
          match w.UnmarshalCameras respRaw with
          | .error err => pure (.error (.lib err))
          | .ok camerasResponse =>
            if camerasResponse.StatusDescription ≠ "ok" ∨ camerasResponse.Items.length < 1 then
              pure (.error (.Errorf "got unexpected json response from server: %+v"
                [camerasResponse.plusV]))
            else do
              logInfo "successfully created login session"
              pure (.ok camerasResponse)

/-- The request `getImage` builds. -/
def getImageRequest (sessionToken apiURL cameraUUID : String) (imageWidth : Int) : Request :=
  Request.AddCookie
    { Method := "GET"
      URL := Sprintf "https://%s%s?uuid=%s&width=%d"
        [apiURL, getImageEndpoint, cameraUUID, toString imageWidth]
      Header := []
      Cookies := []
      Body := none }
    { Name := sessionCookieName, Value := sessionToken }

def getImage (w : World) (sessionToken apiURL cameraUUID : String) (imageWidth : Int) :
    Proc (Except error Image) := do
  emit (.call (.getImage sessionToken apiURL cameraUUID imageWidth))
  logInfo "getting image from camera"
  let req := getImageRequest sessionToken apiURL cameraUUID imageWidth
  match w.NewRequest "GET" req.URL with
  | some err => pure (.error (.lib err))
  | none =>
    logDebug (Sprintf "making GET request to %s" [req.URL])
    match ← httpDo w req with
    | .error err => pure (.error (.lib err))
    | .ok resp =>
      if resp.StatusCode ≠ 200 then
        pure (.error (.Errorf "non-200 status returned by server: %s" [resp.Status]))
      else do
        logDebug "decoding image response from server"
        pure ((w.jpegDecode resp.Body).mapError .lib)

/-- Model of `os.Create(outFile)`: on success the file exists and is empty. -/
def osCreate (w : World) (outFile : String) : Proc (Option error) := do
  emit (.create outFile)
  let s ← getState
  match w.Create s.fs outFile with
  | some err => pure (some (.lib err))
  | none => fun s => .ret none { s with fs := s.fs.write outFile "" }

/-- An encoder run on the open output file: the bytes it wrote become the contents of
the file, and its error is returned. -/
def encodeTo (outFile : String) (format : Format) (r : String × Option String) :
    Proc (Option error) := do
  emit (.encode format)
  fun s => .ret (r.2.map .lib) { s with fs := s.fs.write outFile r.1 }

def saveImage (w : World) (img : Image) (outFile : String) : Proc (Option error) := do
  emit (.call (.saveImage outFile))
  logInfo (Sprintf "saving image to %s" [outFile])
  match ← osCreate w outFile with
  | some err => pure (some err)
  | none =>
    if HasSuffix outFile ".png" then
      match ← encodeTo outFile .PNG (w.pngEncode img) with
      | some err => pure (some err)
      | none => pure none
    else if HasSuffix outFile ".jpeg" then
      match ← encodeTo outFile .JPEG (w.jpegEncode img) with
      | some err => pure (some err)
      | none => pure none
    else
      pure (some (.Errorf "unrecognized image type for file %s" [outFile]))

/-- Model of `flag.Parse()` on well-formed arguments: the globals get their flag values. -/
def flagParse (f : Flags) : Proc Unit :=
  fun s => .ret () { s with debug := f.debug, quiet := f.quiet }

/-- The body of `main`, after the flags are declared.  Where the source would go on
after a fatal `logError` with a nil result, the model has a panic; these continuations are
never reached, since `logError` with `fatal` set ends the process (`logError_apply`). -/
def main (w : World) (f : Flags) : Proc Unit := do
  flagParse f
  if f.cameraToken = "" then
    logError "missing required flag -token" "" true
  if !HasSuffix f.outFile ".png" && !HasSuffix f.outFile ".jpeg" then
    logError "-out must end in .png or .jpeg" "" true
  match ← login w f.password f.cameraToken with
  | .error err =>
    logError "error creating login session" err.Error true
    goPanic
  | .ok loginInfo =>
    match loginInfo.Items[0]? with
    | none => goPanic
    | some item0 =>
      let sessionToken := item0.SessionToken
      match ← getCameras w sessionToken f.cameraToken with
      | .error err =>
        logError "error getting camera(s)" err.Error true
        goPanic
      | .ok cameras =>
        match cameras.Items[0]? with
        | none => goPanic
        | some camera =>
          logInfo (Sprintf "using camera name=%s, uuid=%s" [camera.Name, camera.UUID])
          match ← getImage w sessionToken camera.NexusAPINestDomainHost camera.UUID
              f.imageWidth with
          | .error err =>
            logError "error getting image" err.Error true
            goPanic
          | .ok img =>
            match ← saveImage w img f.outFile with
            | some err => logError "error saving image" err.Error true
            | none => pure ()
            logInfo "done"

/-! ## Observations on runs and sample worlds -/

/-- The stage calls among a list of events, in order. -/
def calls (t : List Event) : List Call :=
  t.filterMap (fun e => match e with
    | .call c => some c
    | _ => none)

/-- The formats encoded among a list of events, in order. -/
def encodings (t : List Event) : List Format :=
  t.filterMap (fun e => match e with
    | .encode format => some format
    | _ => none)

/-- The message template of the error a stage returned, if it returned one made by
`fmt.Errorf`. -/
def errorKind {α : Type} : Result (Except error α) → Option String
  | .ret (.error e) _ => e.kind
  | _ => none

/-- The value a computation returned, if it returned. -/
def Result.value {α : Type} : Result α → Option α
  | .ret a _ => some a
  | .exit _ _ => none

/-- A file system without files. -/
def emptyFS : FS := fun _ => none

/-- A world in which every call succeeds: one session, one camera, a decodable snapshot. -/
def demoWorld : World :=
  { now := 1700000000
    NewRequest := fun _ _ => none
    Do := fun _ => .ok { StatusCode := 200, Status := "200 OK", Body := .ok "body" }
    UnmarshalLogin := fun _ => .ok
      { Status := 0, Items := [{ SessionToken := "sess" }], StatusDescription := "ok",
        StatusDetail := "" }
    UnmarshalCameras := fun _ => .ok
      { Status := 0
        Items := [{ Name := "Front Door", UUID := "uuid1", NexusAPINestDomainHost := "nexus.example" }]
        StatusDescription := "ok", StatusDetail := "" }
    jpegDecode := fun _ => .ok { Width := 1, Height := 1, Pix := [0] }
    Create := fun _ _ => none
    pngEncode := fun _ => ("PNG", none)
    jpegEncode := fun _ => ("JPEG", none) }

/-- The demo world with a login response of status description "ok" and zero items. -/
def zeroItemsWorld : World :=
  { demoWorld with
    UnmarshalLogin := fun _ => .ok
      { Status := 0, Items := [], StatusDescription := "ok", StatusDetail := "" } }

/-- The demo world with a login response of one item and status description "denied". -/
def badStatusWorld : World :=
  { demoWorld with
    UnmarshalLogin := fun _ => .ok
      { Status := 0, Items := [{ SessionToken := "sess" }], StatusDescription := "denied",
        StatusDetail := "" } }

/-- The demo world with a PNG encoder that fails before writing anything. -/
def encodeFailWorld : World :=
  { demoWorld with pngEncode := fun _ => ("", some "png: encode failed") }

/-- The demo world with a listing of zero cameras. -/
def noCameraWorld : World :=
  { demoWorld with
    UnmarshalCameras := fun _ => .ok
      { Status := 0, Items := [], StatusDescription := "ok", StatusDetail := "" } }

/-- The demo world with a server that answers every request with status 503. -/
def unavailableWorld : World :=
  { demoWorld with
    Do := fun _ => .ok
      { StatusCode := 503, Status := "503 Service Unavailable", Body := .ok "body" } }

/-- The demo world with an `os.Create` that fails on every path. -/
def createFailWorld : World :=
  { demoWorld with
    Create := fun _ path => some ("open " ++ path ++ ": no such file or directory") }

/-- Flags of a run on token `abc` without password. -/
def demoFlags (outFile : String) (imageWidth : Int) : Flags :=
  { cameraToken := "abc", password := "", outFile := outFile, imageWidth := imageWidth,
    debug := false, quiet := false }

/-! ## Definitions used in the proofs

The state after each logging call, the stages as functions of the world, and the shapes a
run of `main` can take.  They are proved equal to the program above (`login_eq`,
`getCameras_eq`, `getImage_eq`, `saveImage_eq`, `main_shape`) before anything is derived
from them. -/

/-- State after `logInfo msg`. -/
def afterInfo (msg : String) (s : State) : State := (logInfo msg s).state

/-- State after `logDebug msg`. -/
def afterDebug (msg : String) (s : State) : State := (logDebug msg s).state

/-- State after `logError msg debugMsg fatal`. -/
def afterError (msg debugMsg : String) (fatal : Bool) (s : State) : State :=
  (logError msg debugMsg fatal s).state

/-- The value `login` returns, as a function of the world alone (`login_eq`). -/
def loginResult (w : World) (password cameraToken : String) : Except error loginResponse :=
  match w.NewRequest "POST" (loginRequest password cameraToken).URL with
  | some err => .error (.lib err)
  | none =>
    match w.Do (loginRequest password cameraToken) with
    | .error err => .error (.lib err)
    | .ok resp =>
      if resp.StatusCode ≠ 200 then
        .error (.Errorf "non-200 status returned by server: %s" [resp.Status])
      else
        match resp.Body with
        | .error err => .error (.lib err)
        | .ok respRaw =>
          match w.UnmarshalLogin respRaw with
          | .error err => .error (.lib err)
          | .ok loginInfo =>
            if loginInfo.StatusDescription ≠ "ok" ∨ loginInfo.Items.length ≠ 1 then
              .error (.Errorf "got unexpected json response from server: %+v" [loginInfo.plusV])
            else .ok loginInfo

/-- The value `getCameras` returns, as a function of the world alone (`getCameras_eq`). -/
def getCamerasResult (w : World) (sessionToken cameraToken : String) :
    Except error getCamerasResponse :=
  match w.NewRequest "GET" (getCamerasRequest w sessionToken cameraToken).URL with
  | some err => .error (.lib err)
  | none =>
    match w.Do (getCamerasRequest w sessionToken cameraToken) with
    | .error err => .error (.lib err)
    | .ok resp =>
      if resp.StatusCode ≠ 200 then
        .error (.Errorf "non-200 status returned by server: %s" [resp.Status])
      else
        match resp.Body with
        | .error err => .error (.lib err)
        | .ok respRaw =>
          match w.UnmarshalCameras respRaw with
          | .error err => .error (.lib err)
          | .ok camerasResponse =>
            if camerasResponse.StatusDescription ≠ "ok" ∨ camerasResponse.Items.length < 1 then
              .error (.Errorf "got unexpected json response from server: %+v"
                [camerasResponse.plusV])
            else .ok camerasResponse

/-- The value `getImage` returns, as a function of the world alone (`getImage_eq`). -/
def getImageResult (w : World) (sessionToken apiURL cameraUUID : String) (imageWidth : Int) :
    Except error Image :=
  match w.NewRequest "GET" (getImageRequest sessionToken apiURL cameraUUID imageWidth).URL with
  | some err => .error (.lib err)
  | none =>
    match w.Do (getImageRequest sessionToken apiURL cameraUUID imageWidth) with
    | .error err => .error (.lib err)
    | .ok resp =>
      if resp.StatusCode ≠ 200 then
        .error (.Errorf "non-200 status returned by server: %s" [resp.Status])
      else (w.jpegDecode resp.Body).mapError .lib

/-- The events of one HTTP stage after its entry: the request with its result, unless the
request could not be built. -/
def stageEvents (w : World) (method : String) (req : Request) : List Event :=
  match w.NewRequest method req.URL with
  | some _ => []
  | none => [.http req (w.Do req)]

/-- What `saveImage` returns, the file system it leaves, and its events after its entry,
as a function of the world and the file system it starts from (`saveImage_eq`). -/
def saveImageResult (w : World) (fs : FS) (img : Image) (outFile : String) :
    Option error × FS × List Event :=
  match w.Create fs outFile with
  | some err => (some (.lib err), fs, [.create outFile])
  | none =>
    if HasSuffix outFile ".png" then
      ((w.pngEncode img).2.map .lib, (fs.write outFile "").write outFile (w.pngEncode img).1,
        [.create outFile, .encode .PNG])
    else if HasSuffix outFile ".jpeg" then
      ((w.jpegEncode img).2.map .lib, (fs.write outFile "").write outFile (w.jpegEncode img).1,
        [.create outFile, .encode .JPEG])
    else
      (some (.Errorf "unrecognized image type for file %s" [outFile]), fs.write outFile "",
        [.create outFile])

/-- Events of the login stage. -/
def loginEvents (w : World) (password cameraToken : String) : List Event :=
  .call (.login password cameraToken) :: stageEvents w "POST" (loginRequest password cameraToken)

/-- Events of the listing stage. -/
def getCamerasEvents (w : World) (sessionToken cameraToken : String) : List Event :=
  .call (.getCameras sessionToken cameraToken) ::
    stageEvents w "GET" (getCamerasRequest w sessionToken cameraToken)

/-- Events of the snapshot stage. -/
def getImageEvents (w : World) (sessionToken apiURL cameraUUID : String) (imageWidth : Int) :
    List Event :=
  .call (.getImage sessionToken apiURL cameraUUID imageWidth) ::
    stageEvents w "GET" (getImageRequest sessionToken apiURL cameraUUID imageWidth)

/-- Events of the save stage started on file system `fs`. -/
def saveImageEvents (w : World) (fs : FS) (img : Image) (outFile : String) : List Event :=
  .call (.saveImage outFile) :: (saveImageResult w fs img outFile).2.2

/-- The shapes a run of `main` can take: where it stops, with which exit status, file
system and events. -/
inductive RunShape (w : World) (f : Flags) (fs : FS) : Int → FS → List Event → Prop where
  | noToken : f.cameraToken = "" → RunShape w f fs 1 fs []
  | badOut : f.cameraToken ≠ "" →
      HasSuffix f.outFile ".png" = false → HasSuffix f.outFile ".jpeg" = false →
      RunShape w f fs 1 fs []
  | loginFailed (e : error) : f.cameraToken ≠ "" →
      (HasSuffix f.outFile ".png" = true ∨ HasSuffix f.outFile ".jpeg" = true) →
      loginResult w f.password f.cameraToken = .error e →
      RunShape w f fs 1 fs (loginEvents w f.password f.cameraToken)
  | getCamerasFailed (li : loginResponse) (item : loginResponseItem) (e : error) :
      f.cameraToken ≠ "" →
      (HasSuffix f.outFile ".png" = true ∨ HasSuffix f.outFile ".jpeg" = true) →
      loginResult w f.password f.cameraToken = .ok li → li.Items = [item] →
      getCamerasResult w item.SessionToken f.cameraToken = .error e →
      RunShape w f fs 1 fs
        (loginEvents w f.password f.cameraToken ++
          getCamerasEvents w item.SessionToken f.cameraToken)
  | getImageFailed (li : loginResponse) (item : loginResponseItem) (cams : getCamerasResponse)
      (camera : getCamerasResponeItem) (rest : List getCamerasResponeItem) (e : error) :
      f.cameraToken ≠ "" →
      (HasSuffix f.outFile ".png" = true ∨ HasSuffix f.outFile ".jpeg" = true) →
      loginResult w f.password f.cameraToken = .ok li → li.Items = [item] →
      getCamerasResult w item.SessionToken f.cameraToken = .ok cams →
      cams.Items = camera :: rest →
      getImageResult w item.SessionToken camera.NexusAPINestDomainHost camera.UUID
        f.imageWidth = .error e →
      RunShape w f fs 1 fs
        (loginEvents w f.password f.cameraToken ++
          getCamerasEvents w item.SessionToken f.cameraToken ++
          getImageEvents w item.SessionToken camera.NexusAPINestDomainHost camera.UUID
            f.imageWidth)
  | saved (li : loginResponse) (item : loginResponseItem) (cams : getCamerasResponse)
      (camera : getCamerasResponeItem) (rest : List getCamerasResponeItem) (img : Image) :
      f.cameraToken ≠ "" →
      (HasSuffix f.outFile ".png" = true ∨ HasSuffix f.outFile ".jpeg" = true) →
      loginResult w f.password f.cameraToken = .ok li → li.Items = [item] →
      getCamerasResult w item.SessionToken f.cameraToken = .ok cams →
      cams.Items = camera :: rest →
      getImageResult w item.SessionToken camera.NexusAPINestDomainHost camera.UUID
        f.imageWidth = .ok img →
      RunShape w f fs (if (saveImageResult w fs img f.outFile).1 = none then 0 else 1)
        (saveImageResult w fs img f.outFile).2.1
        (loginEvents w f.password f.cameraToken ++
          getCamerasEvents w item.SessionToken f.cameraToken ++
          getImageEvents w item.SessionToken camera.NexusAPINestDomainHost camera.UUID
            f.imageWidth ++
          saveImageEvents w fs img f.outFile)

/-- An event that is not a response with a status other than 200. -/
def Event.good (e : Event) : Prop :=
  ∀ req resp, e = .http req (.ok resp) → resp.StatusCode = 200

/-! ## Evaluation of the program -/

theorem Proc.bind_apply {α β : Type} (m : Proc α) (f : α → Proc β) (s : State) :
    (m >>= f) s = match m s with
      | .ret a s1 => f a s1
      | .exit code s1 => .exit code s1 := rfl

theorem Proc.pure_apply {α : Type} (a : α) (s : State) :
    (pure a : Proc α) s = .ret a s := rfl

theorem Proc.ite_apply {α : Type} (c : Prop) [Decidable c] (m n : Proc α) (s : State) :
    (if c then m else n) s = if c then m s else n s := by
  split <;> rfl

theorem emit_apply (e : Event) (s : State) :
    emit e s = .ret () { s with trace := s.trace ++ [e] } := rfl

theorem logInfo_apply (msg : String) (s : State) :
    logInfo msg s = .ret () (afterInfo msg s) := by
  obtain ⟨d, q, out, fs, tr⟩ := s
  cases q <;>
    simp [afterInfo, logInfo, getState, Printf, Proc.bind_apply, Proc.pure_apply,
      Proc.ite_apply, Result.state]

theorem logDebug_apply (msg : String) (s : State) :
    logDebug msg s = .ret () (afterDebug msg s) := by
  obtain ⟨d, q, out, fs, tr⟩ := s
  cases q <;> cases d <;>
    simp [afterDebug, logDebug, getState, Printf, Proc.bind_apply, Proc.pure_apply,
      Proc.ite_apply, Result.state]

theorem logError_apply (msg debugMsg : String) (s : State) :
    logError msg debugMsg true s = .exit 1 (afterError msg debugMsg true s) := by
  obtain ⟨d, q, out, fs, tr⟩ := s
  cases q <;> cases d <;> by_cases hm : debugMsg = "" <;>
    simp [afterError, logError, getState, Printf, osExit, Proc.bind_apply, Proc.pure_apply,
      Proc.ite_apply, Result.state, hm]

theorem afterInfo_frame (msg : String) (s : State) :
    (afterInfo msg s).fs = s.fs ∧ (afterInfo msg s).trace = s.trace ∧
      (afterInfo msg s).debug = s.debug ∧ (afterInfo msg s).quiet = s.quiet := by
  obtain ⟨d, q, out, fs, tr⟩ := s
  cases q <;>
    simp [afterInfo, logInfo, getState, Printf, Proc.bind_apply, Proc.pure_apply,
      Proc.ite_apply, Result.state]

theorem afterDebug_frame (msg : String) (s : State) :
    (afterDebug msg s).fs = s.fs ∧ (afterDebug msg s).trace = s.trace ∧
      (afterDebug msg s).debug = s.debug ∧ (afterDebug msg s).quiet = s.quiet := by
  obtain ⟨d, q, out, fs, tr⟩ := s
  cases q <;> cases d <;>
    simp [afterDebug, logDebug, getState, Printf, Proc.bind_apply, Proc.pure_apply,
      Proc.ite_apply, Result.state]

theorem afterError_frame (msg debugMsg : String) (fatal : Bool) (s : State) :
    (afterError msg debugMsg fatal s).fs = s.fs ∧
      (afterError msg debugMsg fatal s).trace = s.trace ∧
      (afterError msg debugMsg fatal s).debug = s.debug ∧
      (afterError msg debugMsg fatal s).quiet = s.quiet := by
  obtain ⟨d, q, out, fs, tr⟩ := s
  cases q <;> cases d <;> cases fatal <;> by_cases hm : debugMsg = "" <;>
    simp [afterError, logError, getState, Printf, osExit, Proc.bind_apply, Proc.pure_apply,
      Proc.ite_apply, Result.state, hm]

@[simp] theorem afterInfo_fs (msg : String) (s : State) : (afterInfo msg s).fs = s.fs :=
  (afterInfo_frame msg s).1
@[simp] theorem afterInfo_trace (msg : String) (s : State) :
    (afterInfo msg s).trace = s.trace := (afterInfo_frame msg s).2.1
@[simp] theorem afterInfo_debug (msg : String) (s : State) :
    (afterInfo msg s).debug = s.debug := (afterInfo_frame msg s).2.2.1
@[simp] theorem afterInfo_quiet (msg : String) (s : State) :
    (afterInfo msg s).quiet = s.quiet := (afterInfo_frame msg s).2.2.2
@[simp] theorem afterDebug_fs (msg : String) (s : State) : (afterDebug msg s).fs = s.fs :=
  (afterDebug_frame msg s).1
@[simp] theorem afterDebug_trace (msg : String) (s : State) :
    (afterDebug msg s).trace = s.trace := (afterDebug_frame msg s).2.1
@[simp] theorem afterDebug_debug (msg : String) (s : State) :
    (afterDebug msg s).debug = s.debug := (afterDebug_frame msg s).2.2.1
@[simp] theorem afterDebug_quiet (msg : String) (s : State) :
    (afterDebug msg s).quiet = s.quiet := (afterDebug_frame msg s).2.2.2
@[simp] theorem afterError_fs (msg debugMsg : String) (fatal : Bool) (s : State) :
    (afterError msg debugMsg fatal s).fs = s.fs := (afterError_frame msg debugMsg fatal s).1
@[simp] theorem afterError_trace (msg debugMsg : String) (fatal : Bool) (s : State) :
    (afterError msg debugMsg fatal s).trace = s.trace :=
  (afterError_frame msg debugMsg fatal s).2.1

theorem login_eq (w : World) (password cameraToken : String) (s : State) :
    ∃ s', login w password cameraToken s = .ret (loginResult w password cameraToken) s' ∧
      s'.fs = s.fs ∧ s'.debug = s.debug ∧ s'.quiet = s.quiet ∧
      s'.trace = s.trace ++ .call (.login password cameraToken) ::
        stageEvents w "POST" (loginRequest password cameraToken) := by
  have hurl : Sprintf "https://%s%s" [baseNestHost, loginEndpoint] =
      (loginRequest password cameraToken).URL := rfl
  simp only [login, loginResult, stageEvents, hurl, httpDo, logInfo_apply, logDebug_apply,
    emit_apply, Proc.bind_apply, Proc.pure_apply]
  cases w.NewRequest "POST" (loginRequest password cameraToken).URL with
  | some err => simp [Proc.pure_apply]
  | none =>
    simp only [logDebug_apply, emit_apply, Proc.bind_apply, Proc.pure_apply]
    cases w.Do (loginRequest password cameraToken) with
    | error err => simp [Proc.pure_apply]
    | ok resp =>
      by_cases hs : resp.StatusCode = 200
      · simp only [hs, ne_eq, not_true_eq_false, if_false]
        cases resp.Body with
        | error err => simp [Proc.pure_apply]
        | ok respRaw =>
          simp only [logDebug_apply, Proc.bind_apply]
          cases w.UnmarshalLogin respRaw with
          | error err => simp [Proc.pure_apply]
          | ok loginInfo =>
            by_cases hc : loginInfo.StatusDescription ≠ "ok" ∨ loginInfo.Items.length ≠ 1
            · simp [hc, Proc.pure_apply]
            · simp [hc, Proc.pure_apply, Proc.bind_apply, logInfo_apply]
      · simp [hs, Proc.pure_apply]

theorem getCameras_eq (w : World) (sessionToken cameraToken : String) (s : State) :
    ∃ s', getCameras w sessionToken cameraToken s =
        .ret (getCamerasResult w sessionToken cameraToken) s' ∧
      s'.fs = s.fs ∧ s'.debug = s.debug ∧ s'.quiet = s.quiet ∧
      s'.trace = s.trace ++ .call (.getCameras sessionToken cameraToken) ::
        stageEvents w "GET" (getCamerasRequest w sessionToken cameraToken) := by
  simp only [getCameras, getCamerasResult, stageEvents, httpDo, logInfo_apply, logDebug_apply,
    emit_apply, Proc.bind_apply, Proc.pure_apply]
  cases w.NewRequest "GET" (getCamerasRequest w sessionToken cameraToken).URL with
  | some err => simp [Proc.pure_apply]
  | none =>
    simp only [logDebug_apply, emit_apply, Proc.bind_apply, Proc.pure_apply]
    cases w.Do (getCamerasRequest w sessionToken cameraToken) with
    | error err => simp [Proc.pure_apply]
    | ok resp =>
      by_cases hs : resp.StatusCode = 200
      · simp only [hs, ne_eq, not_true_eq_false, if_false]
        cases resp.Body with
        | error err => simp [Proc.pure_apply]
        | ok respRaw =>
          simp only [logDebug_apply, Proc.bind_apply]
          cases w.UnmarshalCameras respRaw with
          | error err => simp [Proc.pure_apply]
          | ok camerasResponse =>
            by_cases hc : ¬camerasResponse.StatusDescription = "ok" ∨
                camerasResponse.Items.length < 1
            · simp only [if_pos hc]
              simp [Proc.pure_apply]
            · simp only [if_neg hc]
              simp [Proc.pure_apply, Proc.bind_apply, logInfo_apply]
      · simp [hs, Proc.pure_apply]

theorem getImage_eq (w : World) (sessionToken apiURL cameraUUID : String) (imageWidth : Int)
    (s : State) :
    ∃ s', getImage w sessionToken apiURL cameraUUID imageWidth s =
        .ret (getImageResult w sessionToken apiURL cameraUUID imageWidth) s' ∧
      s'.fs = s.fs ∧ s'.debug = s.debug ∧ s'.quiet = s.quiet ∧
      s'.trace = s.trace ++ .call (.getImage sessionToken apiURL cameraUUID imageWidth) ::
        stageEvents w "GET" (getImageRequest sessionToken apiURL cameraUUID imageWidth) := by
  simp only [getImage, getImageResult, stageEvents, httpDo, logInfo_apply, logDebug_apply,
    emit_apply, Proc.bind_apply, Proc.pure_apply]
  cases w.NewRequest "GET" (getImageRequest sessionToken apiURL cameraUUID imageWidth).URL with
  | some err => simp [Proc.pure_apply]
  | none =>
    simp only [logDebug_apply, emit_apply, Proc.bind_apply, Proc.pure_apply]
    cases w.Do (getImageRequest sessionToken apiURL cameraUUID imageWidth) with
    | error err => simp [Proc.pure_apply]
    | ok resp =>
      by_cases hs : resp.StatusCode = 200
      · simp [hs, Proc.pure_apply, Proc.bind_apply, logDebug_apply]
      · simp [hs, Proc.pure_apply]

theorem saveImage_eq (w : World) (img : Image) (outFile : String) (s : State) :
    ∃ s', saveImage w img outFile s = .ret (saveImageResult w s.fs img outFile).1 s' ∧
      s'.fs = (saveImageResult w s.fs img outFile).2.1 ∧
      s'.debug = s.debug ∧ s'.quiet = s.quiet ∧
      s'.trace = s.trace ++ .call (.saveImage outFile) ::
        (saveImageResult w s.fs img outFile).2.2 := by
  simp only [saveImage, saveImageResult, osCreate, encodeTo, getState, logInfo_apply,
    emit_apply, Proc.bind_apply, Proc.pure_apply, afterInfo_fs]
  cases w.Create s.fs outFile with
  | some err => simp [Proc.pure_apply]
  | none =>
    by_cases hp : HasSuffix outFile ".png" = true
    · cases he : (w.pngEncode img).2 <;>
        simp [hp, he, Proc.pure_apply, Proc.bind_apply, emit_apply]
    · by_cases hj : HasSuffix outFile ".jpeg" = true
      · cases he : (w.jpegEncode img).2 <;>
          simp [hp, hj, he, Proc.pure_apply, Proc.bind_apply, emit_apply]
      · simp [hp, hj, Proc.pure_apply]

theorem mapError_eq_ok {ε ε' α : Type} (g : ε → ε') (x : Except ε α) (a : α) :
    Except.mapError g x = .ok a ↔ x = .ok a := by
  cases x <;> simp [Except.mapError]

theorem loginResult_ok (w : World) (password cameraToken : String) (li : loginResponse)
    (h : loginResult w password cameraToken = .ok li) :
    w.NewRequest "POST" (loginRequest password cameraToken).URL = none ∧
    ∃ resp respRaw, w.Do (loginRequest password cameraToken) = .ok resp ∧
      resp.StatusCode = 200 ∧ resp.Body = .ok respRaw ∧ w.UnmarshalLogin respRaw = .ok li ∧
      li.StatusDescription = "ok" ∧ li.Items.length = 1 := by
  unfold loginResult at h
  repeat' split at h
  all_goals simp_all

theorem getCamerasResult_ok (w : World) (sessionToken cameraToken : String)
    (r : getCamerasResponse) (h : getCamerasResult w sessionToken cameraToken = .ok r) :
    w.NewRequest "GET" (getCamerasRequest w sessionToken cameraToken).URL = none ∧
    ∃ resp respRaw, w.Do (getCamerasRequest w sessionToken cameraToken) = .ok resp ∧
      resp.StatusCode = 200 ∧ resp.Body = .ok respRaw ∧ w.UnmarshalCameras respRaw = .ok r ∧
      r.StatusDescription = "ok" ∧ 1 ≤ r.Items.length := by
  unfold getCamerasResult at h
  repeat' split at h
  all_goals simp_all
  rename_i hne
  exact Nat.one_le_iff_ne_zero.mpr (by simpa using hne.2)

theorem getImageResult_ok (w : World) (sessionToken apiURL cameraUUID : String)
    (imageWidth : Int) (img : Image)
    (h : getImageResult w sessionToken apiURL cameraUUID imageWidth = .ok img) :
    w.NewRequest "GET" (getImageRequest sessionToken apiURL cameraUUID imageWidth).URL = none ∧
    ∃ resp, w.Do (getImageRequest sessionToken apiURL cameraUUID imageWidth) = .ok resp ∧
      resp.StatusCode = 200 ∧ w.jpegDecode resp.Body = .ok img := by
  unfold getImageResult at h
  repeat' split at h
  all_goals simp_all [mapError_eq_ok]

theorem flagParse_apply (f : Flags) (fs : FS) :
    flagParse f (State.init fs) = .ret () ⟨f.debug, f.quiet, [], fs, []⟩ := rfl

theorem main_shape (w : World) (f : Flags) (fs : FS) :
    RunShape w f fs (main w f (State.init fs)).exitCode (main w f (State.init fs)).state.fs
      (main w f (State.init fs)).state.trace := by
  by_cases ht : f.cameraToken = ""
  · simp only [main, Proc.bind_apply, flagParse_apply, Proc.ite_apply, if_pos ht,
      logError_apply, Result.exitCode, Result.state, afterError_fs, afterError_trace]
    exact .noToken ht
  by_cases hs : (!HasSuffix f.outFile ".png" && !HasSuffix f.outFile ".jpeg") = true
  · simp only [main, Proc.bind_apply, flagParse_apply, Proc.ite_apply, if_neg ht, if_pos hs,
      Proc.pure_apply, logError_apply, Result.exitCode, Result.state, afterError_fs,
      afterError_trace]
    simp only [Bool.and_eq_true, Bool.not_eq_true'] at hs
    exact .badOut ht hs.1 hs.2
  have hs' : HasSuffix f.outFile ".png" = true ∨ HasSuffix f.outFile ".jpeg" = true := by
    cases h1 : HasSuffix f.outFile ".png" <;> cases h2 : HasSuffix f.outFile ".jpeg" <;>
      simp_all
  simp only [main, Proc.bind_apply, flagParse_apply, Proc.ite_apply, if_neg ht, if_neg hs,
    Proc.pure_apply]
  obtain ⟨s1, h1, hfs1, -, -, htr1⟩ :=
    login_eq w f.password f.cameraToken ⟨f.debug, f.quiet, [], fs, []⟩
  simp only [h1]
  simp only [List.nil_append] at hfs1 htr1
  cases hl : loginResult w f.password f.cameraToken with
  | error e =>
    simp only [Proc.bind_apply, logError_apply, Result.exitCode, Result.state, afterError_fs,
      afterError_trace, hfs1, htr1]
    exact .loginFailed e ht hs' hl
  | ok li =>
    obtain ⟨-, -, -, -, -, -, -, -, hlen⟩ := loginResult_ok w _ _ li hl
    obtain ⟨item, hitem⟩ := List.length_eq_one.mp hlen
    simp only [hitem, List.getElem?_cons_zero, Proc.bind_apply]
    obtain ⟨s2, h2, hfs2, -, -, htr2⟩ := getCameras_eq w item.SessionToken f.cameraToken s1
    simp only [h2]
    cases hc : getCamerasResult w item.SessionToken f.cameraToken with
    | error e =>
      simp only [Proc.bind_apply, logError_apply, Result.exitCode, Result.state,
        afterError_fs, afterError_trace, hfs1, htr1, hfs2, htr2]
      exact .getCamerasFailed li item e ht hs' hl hitem hc
    | ok cams =>
      obtain ⟨-, -, -, -, -, -, -, -, hlen2⟩ := getCamerasResult_ok w _ _ cams hc
      obtain ⟨camera, rest, hcam⟩ := List.exists_cons_of_length_pos hlen2
      simp only [hcam, List.getElem?_cons_zero, Proc.bind_apply, logInfo_apply]
      obtain ⟨s3, h3, hfs3, -, -, htr3⟩ :=
        getImage_eq w item.SessionToken camera.NexusAPINestDomainHost camera.UUID f.imageWidth
          (afterInfo (Sprintf "using camera name=%s, uuid=%s" [camera.Name, camera.UUID]) s2)
      simp only [h3]
      simp only [afterInfo_fs, afterInfo_trace] at hfs3 htr3
      cases hi : getImageResult w item.SessionToken camera.NexusAPINestDomainHost camera.UUID
          f.imageWidth with
      | error e =>
        simp only [Proc.bind_apply, logError_apply, Result.exitCode, Result.state,
          afterError_fs, afterError_trace, hfs1, htr1, hfs2, htr2, hfs3, htr3]
        have := @RunShape.getImageFailed w f fs li item cams camera rest e ht hs' hl hitem hc hcam hi
        simpa [loginEvents, getCamerasEvents, getImageEvents] using this
      | ok img =>
        obtain ⟨s4, h4, hfs4, -, -, htr4⟩ := saveImage_eq w img f.outFile s3
        simp only [Proc.bind_apply, h4]
        have hfs : s3.fs = fs := by rw [hfs3, hfs2, hfs1]
        rw [hfs] at hfs4 htr4 h4
        have key := @RunShape.saved w f fs li item cams camera rest img ht hs' hl hitem hc hcam hi
        cases hsv : (saveImageResult w fs img f.outFile).1 with
        | some e =>
          simp only [hfs, hsv, Proc.bind_apply, logError_apply, Result.exitCode, Result.state,
            afterError_fs, afterError_trace, hfs4, htr4, htr3, htr2, htr1]
          simpa [hsv, loginEvents, getCamerasEvents, getImageEvents, saveImageEvents] using key
        | none =>
          simp only [hfs, hsv, Proc.bind_apply, Proc.pure_apply, logInfo_apply, Result.exitCode,
            Result.state, afterInfo_fs, afterInfo_trace, hfs4, htr4, htr3, htr2, htr1]
          simpa [hsv, loginEvents, getCamerasEvents, getImageEvents, saveImageEvents] using key

theorem flatMap_escapeChar_id (l : List Char) (h : ∀ c ∈ l, shouldEscape c = false) :
    l.flatMap escapeChar = l := by
  induction l with
  | nil => rfl
  | cons c cs ih =>
    have hc : shouldEscape c = false := h c (List.mem_cons_self c cs)
    have hcs : ∀ d ∈ cs, shouldEscape d = false := fun d hd => h d (List.mem_cons_of_mem c hd)
    simp [List.flatMap_cons, escapeChar, hc, ih hcs]

theorem QueryEscape_id (s : String) (h : ∀ c ∈ s.data, shouldEscape c = false) :
    QueryEscape s = s := by
  unfold QueryEscape
  rw [flatMap_escapeChar_id s.data h]

theorem not_both_suffixes (outFile : String) :
    ¬(HasSuffix outFile ".png" = true ∧ HasSuffix outFile ".jpeg" = true) := by
  rintro ⟨h1, h2⟩
  simp only [HasSuffix, Bool.and_eq_true, decide_eq_true_eq, beq_iff_eq] at h1 h2
  obtain ⟨hl1, hd1⟩ := h1
  obtain ⟨hl2, hd2⟩ := h2
  have e4 : ".png".data.length = 4 := rfl
  have e5 : ".jpeg".data.length = 5 := rfl
  rw [e4] at hd1 hl1
  rw [e5] at hd2 hl2
  have hsplit : outFile.data.length - 4 = (outFile.data.length - 5) + 1 := by omega
  rw [hsplit, ← List.drop_drop, hd2] at hd1
  revert hd1
  decide

theorem main_run (w : World) (f : Flags) (fs : FS) :
    ∃ c fs' t, (main w f (State.init fs)).exitCode = c ∧
      (main w f (State.init fs)).state.fs = fs' ∧
      (main w f (State.init fs)).state.trace = t ∧ RunShape w f fs c fs' t :=
  ⟨_, _, _, rfl, rfl, rfl, main_shape w f fs⟩

theorem calls_append (a b : List Event) : calls (a ++ b) = calls a ++ calls b := by
  simp [calls, List.filterMap_append]

theorem calls_stageEvents (w : World) (method : String) (req : Request) :
    calls (stageEvents w method req) = [] := by
  unfold stageEvents
  split <;> rfl

theorem calls_loginEvents (w : World) (password cameraToken : String) :
    calls (loginEvents w password cameraToken) = [.login password cameraToken] := by
  have h := calls_stageEvents w "POST" (loginRequest password cameraToken)
  simp only [calls] at h
  simp [loginEvents, calls, h]

theorem calls_getCamerasEvents (w : World) (sessionToken cameraToken : String) :
    calls (getCamerasEvents w sessionToken cameraToken) =
      [.getCameras sessionToken cameraToken] := by
  have h := calls_stageEvents w "GET" (getCamerasRequest w sessionToken cameraToken)
  simp only [calls] at h
  simp [getCamerasEvents, calls, h]

theorem calls_getImageEvents (w : World) (sessionToken apiURL cameraUUID : String)
    (imageWidth : Int) :
    calls (getImageEvents w sessionToken apiURL cameraUUID imageWidth) =
      [.getImage sessionToken apiURL cameraUUID imageWidth] := by
  have h := calls_stageEvents w "GET" (getImageRequest sessionToken apiURL cameraUUID imageWidth)
  simp only [calls] at h
  simp [getImageEvents, calls, h]

theorem calls_saveImageEvents (w : World) (fs : FS) (img : Image) (outFile : String) :
    calls (saveImageEvents w fs img outFile) = [.saveImage outFile] := by
  unfold saveImageEvents saveImageResult
  repeat' split
  all_goals rfl

theorem saveImageResult_fs_of_create_error (w : World) (fs : FS) (img : Image)
    (outFile : String) (h : w.Create fs outFile ≠ none) :
    (saveImageResult w fs img outFile).2.1 = fs := by
  unfold saveImageResult
  split
  · rfl
  · contradiction

theorem saveImageResult_fs_other (w : World) (fs : FS) (img : Image) (outFile p : String)
    (hp : p ≠ outFile) : (saveImageResult w fs img outFile).2.1 p = fs p := by
  unfold saveImageResult
  repeat' split
  all_goals simp [FS.write, hp]

theorem loginResult_of_200 (w : World) (password cameraToken : String) (resp : Response)
    (respRaw : String) (r : loginResponse)
    (hreq : w.NewRequest "POST" (loginRequest password cameraToken).URL = none)
    (hdo : w.Do (loginRequest password cameraToken) = .ok resp)
    (h200 : resp.StatusCode = 200) (hbody : resp.Body = .ok respRaw)
    (hjson : w.UnmarshalLogin respRaw = .ok r) :
    loginResult w password cameraToken =
      if r.StatusDescription ≠ "ok" ∨ r.Items.length ≠ 1 then
        .error (.Errorf "got unexpected json response from server: %+v" [r.plusV])
      else .ok r := by
  simp only [loginResult, hreq, hdo, h200, hbody, hjson, ne_eq, not_true_eq_false, if_false]

theorem getCamerasResult_of_200 (w : World) (sessionToken cameraToken : String)
    (resp : Response) (respRaw : String) (r : getCamerasResponse)
    (hreq : w.NewRequest "GET" (getCamerasRequest w sessionToken cameraToken).URL = none)
    (hdo : w.Do (getCamerasRequest w sessionToken cameraToken) = .ok resp)
    (h200 : resp.StatusCode = 200) (hbody : resp.Body = .ok respRaw)
    (hjson : w.UnmarshalCameras respRaw = .ok r) :
    getCamerasResult w sessionToken cameraToken =
      if r.StatusDescription ≠ "ok" ∨ r.Items.length < 1 then
        .error (.Errorf "got unexpected json response from server: %+v" [r.plusV])
      else .ok r := by
  simp only [getCamerasResult, hreq, hdo, h200, hbody, hjson, ne_eq, not_true_eq_false,
    if_false]

theorem loginResult_of_non200 (w : World) (password cameraToken : String) (resp : Response)
    (hreq : w.NewRequest "POST" (loginRequest password cameraToken).URL = none)
    (hdo : w.Do (loginRequest password cameraToken) = .ok resp)
    (hne : resp.StatusCode ≠ 200) :
    loginResult w password cameraToken =
      .error (.Errorf "non-200 status returned by server: %s" [resp.Status]) := by
  simp only [loginResult, hreq, hdo, hne, ne_eq, not_false_eq_true, if_true]

theorem getCamerasResult_of_non200 (w : World) (sessionToken cameraToken : String)
    (resp : Response)
    (hreq : w.NewRequest "GET" (getCamerasRequest w sessionToken cameraToken).URL = none)
    (hdo : w.Do (getCamerasRequest w sessionToken cameraToken) = .ok resp)
    (hne : resp.StatusCode ≠ 200) :
    getCamerasResult w sessionToken cameraToken =
      .error (.Errorf "non-200 status returned by server: %s" [resp.Status]) := by
  simp only [getCamerasResult, hreq, hdo, hne, ne_eq, not_false_eq_true, if_true]

theorem getImageResult_of_non200 (w : World) (sessionToken apiURL cameraUUID : String)
    (imageWidth : Int) (resp : Response)
    (hreq : w.NewRequest "GET"
      (getImageRequest sessionToken apiURL cameraUUID imageWidth).URL = none)
    (hdo : w.Do (getImageRequest sessionToken apiURL cameraUUID imageWidth) = .ok resp)
    (hne : resp.StatusCode ≠ 200) :
    getImageResult w sessionToken apiURL cameraUUID imageWidth =
      .error (.Errorf "non-200 status returned by server: %s" [resp.Status]) := by
  simp only [getImageResult, hreq, hdo, hne, ne_eq, not_false_eq_true, if_true]

theorem split_after_good (a b : List Event) (post : List Event) (req : Request)
    (resp : Response) (hgood : ∀ e ∈ a, e.good) (hne : resp.StatusCode ≠ 200) :
    ∀ pre, a ++ b = pre ++ .http req (.ok resp) :: post →
      ∃ pre', b = pre' ++ .http req (.ok resp) :: post := by
  induction a with
  | nil => intro pre h; exact ⟨pre, h⟩
  | cons x xs ih =>
    intro pre h
    cases pre with
    | nil =>
      simp only [List.cons_append, List.nil_append, List.cons.injEq] at h
      exact absurd (hgood x (List.mem_cons_self x xs) req resp h.1) hne
    | cons y ys =>
      simp only [List.cons_append, List.cons.injEq] at h
      exact ih (fun e he => hgood e (List.mem_cons_of_mem x he)) ys h.2

theorem no_split_of_good (t pre post : List Event) (req : Request) (resp : Response)
    (hgood : ∀ e ∈ t, e.good) (h : t = pre ++ .http req (.ok resp) :: post) :
    resp.StatusCode = 200 := by
  apply hgood (.http req (.ok resp)) _ req resp rfl
  rw [h]
  simp

theorem stage_tail (c : Call) (w : World) (method : String) (r : Request)
    (pre post : List Event) (req : Request) (resp : Response)
    (h : .call c :: stageEvents w method r = pre ++ .http req (.ok resp) :: post) :
    post = [] := by
  unfold stageEvents at h
  split at h
  · rcases pre with _ | ⟨x, _ | ⟨y, ys⟩⟩ <;> simp at h
  · rcases pre with _ | ⟨x, _ | ⟨y, _ | ⟨z, zs⟩⟩⟩ <;> simp at h
    exact h.2.2

theorem stageEvents_good (c : Call) (w : World) (method : String) (r : Request)
    (h : ∀ resp, w.Do r = .ok resp → resp.StatusCode = 200) :
    ∀ e ∈ .call c :: stageEvents w method r, e.good := by
  intro e he
  unfold stageEvents at he
  split at he
  · simp only [List.mem_singleton] at he
    subst he
    intro req resp hh
    cases hh
  · simp only [List.mem_cons, List.mem_singleton, List.not_mem_nil, or_false] at he
    rcases he with he | he
    · subst he
      intro req resp hh
      cases hh
    · subst he
      intro req resp hh
      simp only [Event.http.injEq] at hh
      exact h resp hh.2

theorem loginEvents_good (w : World) (password cameraToken : String) (li : loginResponse)
    (h : loginResult w password cameraToken = .ok li) :
    ∀ e ∈ loginEvents w password cameraToken, e.good := by
  obtain ⟨-, resp, respRaw, hdo, h200, -⟩ := loginResult_ok w _ _ li h
  apply stageEvents_good
  intro resp' hr
  rw [hdo] at hr
  cases hr
  exact h200

theorem getCamerasEvents_good (w : World) (sessionToken cameraToken : String)
    (r : getCamerasResponse) (h : getCamerasResult w sessionToken cameraToken = .ok r) :
    ∀ e ∈ getCamerasEvents w sessionToken cameraToken, e.good := by
  obtain ⟨-, resp, respRaw, hdo, h200, -⟩ := getCamerasResult_ok w _ _ r h
  apply stageEvents_good
  intro resp' hr
  rw [hdo] at hr
  cases hr
  exact h200

theorem getImageEvents_good (w : World) (sessionToken apiURL cameraUUID : String)
    (imageWidth : Int) (img : Image)
    (h : getImageResult w sessionToken apiURL cameraUUID imageWidth = .ok img) :
    ∀ e ∈ getImageEvents w sessionToken apiURL cameraUUID imageWidth, e.good := by
  obtain ⟨-, resp, hdo, h200, -⟩ := getImageResult_ok w _ _ _ _ img h
  apply stageEvents_good
  intro resp' hr
  rw [hdo] at hr
  cases hr
  exact h200

theorem saveImageEvents_good (w : World) (fs : FS) (img : Image) (outFile : String) :
    ∀ e ∈ saveImageEvents w fs img outFile, e.good := by
  intro e he req resp hh
  subst hh
  unfold saveImageEvents saveImageResult at he
  repeat' split at he
  all_goals simp at he

theorem good_append (a b : List Event) (ha : ∀ e ∈ a, e.good) (hb : ∀ e ∈ b, e.good) :
    ∀ e ∈ a ++ b, e.good := by
  intro e he
  rcases List.mem_append.mp he with h | h
  · exact ha e h
  · exact hb e h

theorem mem_afterInfo_stdout (msg l : String) (s : State) :
    l ∈ (afterInfo msg s).stdout ↔
      l ∈ s.stdout ∨ (s.quiet = false ∧ l = Sprintf "[INFO]: %s\n" [msg]) := by
  obtain ⟨d, q, out, fs, tr⟩ := s
  cases q <;>
    simp [afterInfo, logInfo, getState, Printf, Proc.bind_apply, Proc.pure_apply,
      Proc.ite_apply, Result.state]

theorem mem_afterDebug_stdout (msg l : String) (s : State) :
    l ∈ (afterDebug msg s).stdout ↔
      l ∈ s.stdout ∨ (s.debug = true ∧ s.quiet = false ∧ l = Sprintf "[DEBUG]: %s\n" [msg]) := by
  obtain ⟨d, q, out, fs, tr⟩ := s
  cases q <;> cases d <;>
    simp [afterDebug, logDebug, getState, Printf, Proc.bind_apply, Proc.pure_apply,
      Proc.ite_apply, Result.state]

theorem mem_afterError_stdout (msg debugMsg l : String) (fatal : Bool) (s : State)
    (h : l ∈ s.stdout) : l ∈ (afterError msg debugMsg fatal s).stdout := by
  obtain ⟨d, q, out, fs, tr⟩ := s
  cases q <;> cases d <;> cases fatal <;> by_cases hm : debugMsg = "" <;>
    simp_all [afterError, logError, getState, Printf, osExit, Proc.bind_apply, Proc.pure_apply,
      Proc.ite_apply, Result.state]

theorem getImage_stdout (w : World) (sessionToken apiURL cameraUUID : String)
    (imageWidth : Int) (s : State) (l : String) (hl : l ∈ s.stdout) :
    l ∈ (getImage w sessionToken apiURL cameraUUID imageWidth s).state.stdout := by
  simp only [getImage, httpDo, logInfo_apply, logDebug_apply, emit_apply, Proc.bind_apply,
    Proc.pure_apply]
  cases w.NewRequest "GET" (getImageRequest sessionToken apiURL cameraUUID imageWidth).URL with
  | some err => simp [Proc.pure_apply, Result.state, mem_afterInfo_stdout, hl]
  | none =>
    simp only [logDebug_apply, emit_apply, Proc.bind_apply, Proc.pure_apply]
    cases w.Do (getImageRequest sessionToken apiURL cameraUUID imageWidth) with
    | error err =>
      simp [Proc.pure_apply, Result.state, mem_afterInfo_stdout, mem_afterDebug_stdout, hl]
    | ok resp =>
      by_cases hs : resp.StatusCode = 200
      · simp [hs, Proc.pure_apply, Proc.bind_apply, logDebug_apply, Result.state,
          mem_afterInfo_stdout, mem_afterDebug_stdout, hl]
      · simp [hs, Proc.pure_apply, Result.state, mem_afterInfo_stdout, mem_afterDebug_stdout,
          hl]

theorem saveImage_stdout (w : World) (img : Image) (outFile : String) (s : State) (l : String)
    (hl : l ∈ s.stdout) : l ∈ (saveImage w img outFile s).state.stdout := by
  simp only [saveImage, osCreate, encodeTo, getState, logInfo_apply, emit_apply,
    Proc.bind_apply, Proc.pure_apply, afterInfo_fs]
  cases w.Create s.fs outFile with
  | some err => simp [Proc.pure_apply, Result.state, mem_afterInfo_stdout, hl]
  | none =>
    by_cases hp : HasSuffix outFile ".png" = true
    · cases he : (w.pngEncode img).2 <;>
        simp [hp, he, Proc.pure_apply, Proc.bind_apply, emit_apply, Result.state,
          mem_afterInfo_stdout, hl]
    · by_cases hj : HasSuffix outFile ".jpeg" = true
      · cases he : (w.jpegEncode img).2 <;>
          simp [hp, hj, he, Proc.pure_apply, Proc.bind_apply, emit_apply, Result.state,
            mem_afterInfo_stdout, hl]
      · simp [hp, hj, Proc.pure_apply, Result.state, mem_afterInfo_stdout, hl]


theorem main_logs_camera (w : World) (f : Flags) (fs : FS) (li : loginResponse)
    (item : loginResponseItem) (cams : getCamerasResponse) (camera : getCamerasResponeItem)
    (rest : List getCamerasResponeItem) (ht : f.cameraToken ≠ "")
    (hs' : HasSuffix f.outFile ".png" = true ∨ HasSuffix f.outFile ".jpeg" = true)
    (hl : loginResult w f.password f.cameraToken = .ok li) (hitem : li.Items = [item])
    (hc : getCamerasResult w item.SessionToken f.cameraToken = .ok cams)
    (hcam : cams.Items = camera :: rest) (hq : f.quiet = false) :
    Sprintf "[INFO]: %s\n" [Sprintf "using camera name=%s, uuid=%s" [camera.Name, camera.UUID]] ∈
      (main w f (State.init fs)).state.stdout := by
  have hs : ¬((!HasSuffix f.outFile ".png" && !HasSuffix f.outFile ".jpeg") = true) := by
    rcases hs' with h | h <;> simp [h]
  simp only [main, Proc.bind_apply, flagParse_apply, Proc.ite_apply, if_neg ht, if_neg hs,
    Proc.pure_apply]
  obtain ⟨s1, h1, -, -, hq1, -⟩ :=
    login_eq w f.password f.cameraToken ⟨f.debug, f.quiet, [], fs, []⟩
  simp only [h1, hl, hitem, List.getElem?_cons_zero, Proc.bind_apply]
  obtain ⟨s2, h2, -, -, hq2, -⟩ := getCameras_eq w item.SessionToken f.cameraToken s1
  simp only [h2, hc, hcam, List.getElem?_cons_zero, Proc.bind_apply, logInfo_apply]
  have hq2' : s2.quiet = false := by rw [hq2, hq1]; exact hq
  have hmem : Sprintf "[INFO]: %s\n"
      [Sprintf "using camera name=%s, uuid=%s" [camera.Name, camera.UUID]] ∈
      (afterInfo (Sprintf "using camera name=%s, uuid=%s" [camera.Name, camera.UUID])
        s2).stdout := by
    rw [mem_afterInfo_stdout]
    exact Or.inr ⟨hq2', rfl⟩
  have hmem3 := getImage_stdout w item.SessionToken camera.NexusAPINestDomainHost camera.UUID
    f.imageWidth _ _ hmem
  cases h3 : getImage w item.SessionToken camera.NexusAPINestDomainHost camera.UUID
      f.imageWidth
      (afterInfo (Sprintf "using camera name=%s, uuid=%s" [camera.Name, camera.UUID]) s2) with
  | exit code s3 =>
    rw [h3] at hmem3
    exact hmem3
  | ret r s3 =>
    rw [h3] at hmem3
    simp only [Result.state] at hmem3
    cases r with
    | error e =>
      simp only [Proc.bind_apply, logError_apply, Result.state]
      exact mem_afterError_stdout _ _ _ _ _ hmem3
    | ok img =>
      have hmem4 := saveImage_stdout w img f.outFile s3 _ hmem3
      simp only [Proc.bind_apply]
      cases h4 : saveImage w img f.outFile s3 with
      | exit code s4 =>
        rw [h4] at hmem4
        exact hmem4
      | ret r4 s4 =>
        rw [h4] at hmem4
        simp only [Result.state] at hmem4
        cases r4 with
        | some e =>
          simp only [Proc.bind_apply, logError_apply, Result.state]
          exact mem_afterError_stdout _ _ _ _ _ hmem4
        | none =>
          simp only [Proc.bind_apply, Proc.pure_apply, logInfo_apply, Result.state]
          rw [mem_afterInfo_stdout]
          exact Or.inl hmem4

/-! ## The claims -/

/-- C1: for every token, password and HTTP 200 login response whose body parses to `r`,
`login` returns success if and only if `r.StatusDescription` is "ok" and `r.Items` has
exactly one entry; it then returns `r`, the index `Items[0]` is in range, `main` does not
panic, and the session token `main` passes on to `getCameras` is the session token of that
single entry.  In every other case `login` returns an error, hence no credential. -/
theorem C1_login_success (w : World) (f : Flags) (fs : FS) (s : State) (resp : Response)
    (respRaw : String) (r : loginResponse)
    (hreq : w.NewRequest "POST" (loginRequest f.password f.cameraToken).URL = none)
    (hdo : w.Do (loginRequest f.password f.cameraToken) = .ok resp)
    (h200 : resp.StatusCode = 200) (hbody : resp.Body = .ok respRaw)
    (hjson : w.UnmarshalLogin respRaw = .ok r) :
    ((∃ li s', login w f.password f.cameraToken s = .ret (.ok li) s') ↔
      (r.StatusDescription = "ok" ∧ r.Items.length = 1)) ∧
    ((r.StatusDescription = "ok" ∧ r.Items.length = 1) →
      (∃ s', login w f.password f.cameraToken s = .ret (.ok r) s') ∧
      ∃ item, r.Items = [item] ∧ r.Items[0]? = some item ∧
        (f.cameraToken ≠ "" →
          (HasSuffix f.outFile ".png" = true ∨ HasSuffix f.outFile ".jpeg" = true) →
          (main w f (State.init fs)).exitCode ≠ 2 ∧
          ∃ rest, calls (main w f (State.init fs)).state.trace =
            .login f.password f.cameraToken ::
              .getCameras item.SessionToken f.cameraToken :: rest)) ∧
    (¬(r.StatusDescription = "ok" ∧ r.Items.length = 1) →
      ∃ s', login w f.password f.cameraToken s =
        .ret (.error (.Errorf "got unexpected json response from server: %+v" [r.plusV])) s') := by
  obtain ⟨s', hs', -⟩ := login_eq w f.password f.cameraToken s
  have hres := loginResult_of_200 w f.password f.cameraToken resp respRaw r hreq hdo h200
    hbody hjson
  have hbad_iff : (r.StatusDescription ≠ "ok" ∨ r.Items.length ≠ 1) ↔
      ¬(r.StatusDescription = "ok" ∧ r.Items.length = 1) := by
    constructor
    · rintro (h | h) ⟨h1, h2⟩
      · exact h h1
      · exact h h2
    · intro h
      by_cases h1 : r.StatusDescription = "ok"
      · exact Or.inr (fun h2 => h ⟨h1, h2⟩)
      · exact Or.inl h1
  refine ⟨⟨?_, ?_⟩, ?_, ?_⟩
  · rintro ⟨li, s'', hli⟩
    by_contra hn
    rw [if_pos (hbad_iff.mpr hn)] at hres
    rw [hs', hres] at hli
    cases hli
  · intro hok
    rw [if_neg (fun hb => hbad_iff.mp hb hok)] at hres
    exact ⟨r, s', by rw [hs', hres]⟩
  · intro hok
    rw [if_neg (fun hb => hbad_iff.mp hb hok)] at hres
    refine ⟨⟨s', by rw [hs', hres]⟩, ?_⟩
    obtain ⟨item, hitem⟩ := List.length_eq_one.mp hok.2
    refine ⟨item, hitem, by rw [hitem]; rfl, fun htok hsuf => ?_⟩
    obtain ⟨c, fs', t, hc, -, ht, h⟩ := main_run w f fs
    rw [hc, ht]
    cases h with
    | noToken h0 => exact absurd h0 htok
    | badOut h0 h1 h2 => simp [h1, h2] at hsuf
    | loginFailed e h0 h1 h2 => rw [hres] at h2; cases h2
    | getCamerasFailed li item' e h0 h1 h2 h3 h4 =>
      rw [hres] at h2
      cases h2
      rw [hitem] at h3
      cases h3
      exact ⟨by decide, [], by simp [calls_append, calls_loginEvents, calls_getCamerasEvents]⟩
    | getImageFailed li item' cams camera rest e h0 h1 h2 h3 h4 h5 h6 =>
      rw [hres] at h2
      cases h2
      rw [hitem] at h3
      cases h3
      exact ⟨by decide,
        [.getImage item.SessionToken camera.NexusAPINestDomainHost camera.UUID f.imageWidth], by
        simp [calls_append, calls_loginEvents, calls_getCamerasEvents, calls_getImageEvents]⟩
    | saved li item' cams camera rest img h0 h1 h2 h3 h4 h5 h6 =>
      rw [hres] at h2
      cases h2
      rw [hitem] at h3
      cases h3
      refine ⟨?_,
        [.getImage item.SessionToken camera.NexusAPINestDomainHost camera.UUID f.imageWidth,
          .saveImage f.outFile], by
        simp [calls_append, calls_loginEvents, calls_getCamerasEvents, calls_getImageEvents,
          calls_saveImageEvents]⟩
      split <;> decide
  · intro hn
    rw [if_pos (hbad_iff.mpr hn)] at hres
    exact ⟨s', by rw [hs', hres]⟩

/-- Witness of C1: the login response of the demo world. -/
theorem C1_login_success_witness :
    demoWorld.NewRequest "POST"
      (loginRequest (demoFlags "out.png" 512).password
        (demoFlags "out.png" 512).cameraToken).URL = none ∧
    ((∃ li s', login demoWorld (demoFlags "out.png" 512).password
        (demoFlags "out.png" 512).cameraToken (State.init emptyFS) = .ret (.ok li) s') ↔
      (("ok" : String) = "ok" ∧ [loginResponseItem.mk "sess"].length = 1)) :=
  ⟨rfl, (C1_login_success demoWorld (demoFlags "out.png" 512) emptyFS (State.init emptyFS)
    { StatusCode := 200, Status := "200 OK", Body := .ok "body" } "body"
    { Status := 0, Items := [{ SessionToken := "sess" }], StatusDescription := "ok",
      StatusDetail := "" } rfl rfl rfl rfl rfl).1⟩

/-- C2: for every HTTP 200 listing response whose body parses to `r`, `getCameras` returns
success if and only if `r.StatusDescription` is "ok" and `r.Items` has at least one entry;
it then returns `r`, the index `Items[0]` is in range, and in a run of `main` that made
this listing call `main` does not panic, calls `getImage` with the service host and UUID
of the first element of `r.Items`, whatever the length of `r.Items`, and unless `quiet` is
set logs the name and UUID of that element as the camera in use. -/
theorem C2_first_camera (w : World) (f : Flags) (fs : FS) (s : State) (sessionToken : String)
    (resp : Response) (respRaw : String) (r : getCamerasResponse)
    (hreq : w.NewRequest "GET" (getCamerasRequest w sessionToken f.cameraToken).URL = none)
    (hdo : w.Do (getCamerasRequest w sessionToken f.cameraToken) = .ok resp)
    (h200 : resp.StatusCode = 200) (hbody : resp.Body = .ok respRaw)
    (hjson : w.UnmarshalCameras respRaw = .ok r) :
    ((∃ cams s', getCameras w sessionToken f.cameraToken s = .ret (.ok cams) s') ↔
      (r.StatusDescription = "ok" ∧ 1 ≤ r.Items.length)) ∧
    ((r.StatusDescription = "ok" ∧ 1 ≤ r.Items.length) →
      (∃ s', getCameras w sessionToken f.cameraToken s = .ret (.ok r) s') ∧
      ∃ camera rest, r.Items = camera :: rest ∧ r.Items[0]? = some camera ∧
        (Call.getCameras sessionToken f.cameraToken ∈
            calls (main w f (State.init fs)).state.trace →
          (main w f (State.init fs)).exitCode ≠ 2 ∧
          (∃ more, calls (main w f (State.init fs)).state.trace =
            .login f.password f.cameraToken :: .getCameras sessionToken f.cameraToken ::
              .getImage sessionToken camera.NexusAPINestDomainHost camera.UUID f.imageWidth ::
                more) ∧
          (f.quiet = false →
            "[INFO]: using camera name=" ++ camera.Name ++ ", uuid=" ++ camera.UUID ++ "\n" ∈
              (main w f (State.init fs)).state.stdout))) := by
  obtain ⟨s', hs', -⟩ := getCameras_eq w sessionToken f.cameraToken s
  have hfmt : ∀ c : getCamerasResponeItem,
      Sprintf "[INFO]: %s\n" [Sprintf "using camera name=%s, uuid=%s" [c.Name, c.UUID]] =
        "[INFO]: using camera name=" ++ c.Name ++ ", uuid=" ++ c.UUID ++ "\n" := by
    intro c
    have e1 : Sprintf "using camera name=%s, uuid=%s" [c.Name, c.UUID] =
        "using camera name=" ++ c.Name ++ ", uuid=" ++ c.UUID := by
      apply String.ext
      simp only [String.data_append, List.append_assoc]
      conv_rhs => rw [← List.append_nil c.UUID.data]
      rfl
    have e2 : ∀ m : String, Sprintf "[INFO]: %s\n" [m] = "[INFO]: " ++ m ++ "\n" := by
      intro m
      apply String.ext
      simp only [String.data_append, List.append_assoc]
      rfl
    rw [e1, e2]
    apply String.ext
    simp only [String.data_append, List.append_assoc]
    rfl
  have hres := getCamerasResult_of_200 w sessionToken f.cameraToken resp respRaw r hreq hdo
    h200 hbody hjson
  have hbad_iff : (r.StatusDescription ≠ "ok" ∨ r.Items.length < 1) ↔
      ¬(r.StatusDescription = "ok" ∧ 1 ≤ r.Items.length) := by
    constructor
    · rintro (h | h) ⟨h1, h2⟩
      · exact h h1
      · omega
    · intro h
      by_cases h1 : r.StatusDescription = "ok"
      · exact Or.inr (Nat.lt_of_not_le (fun h2 => h ⟨h1, h2⟩))
      · exact Or.inl h1
  refine ⟨⟨?_, ?_⟩, ?_⟩
  · rintro ⟨cams, s'', hli⟩
    by_contra hn
    rw [if_pos (hbad_iff.mpr hn)] at hres
    rw [hs', hres] at hli
    cases hli
  · intro hok
    rw [if_neg (fun hb => hbad_iff.mp hb hok)] at hres
    exact ⟨r, s', by rw [hs', hres]⟩
  · intro hok
    rw [if_neg (fun hb => hbad_iff.mp hb hok)] at hres
    refine ⟨⟨s', by rw [hs', hres]⟩, ?_⟩
    obtain ⟨camera, rest, hitem⟩ := List.exists_cons_of_length_pos hok.2
    refine ⟨camera, rest, hitem, by rw [hitem]; simp, fun hmem => ?_⟩
    obtain ⟨c, fs', t, hc, -, ht, h⟩ := main_run w f fs
    rw [ht] at hmem
    rw [hc, ht]
    cases h with
    | noToken h0 => simp [calls] at hmem
    | badOut h0 h1 h2 => simp [calls] at hmem
    | loginFailed e h0 h1 h2 => simp [calls_loginEvents] at hmem
    | getCamerasFailed li item e h0 h1 h2 h3 h4 =>
      simp [calls_append, calls_loginEvents, calls_getCamerasEvents] at hmem
      subst hmem
      rw [hres] at h4
      cases h4
    | getImageFailed li item cams camera' rest' e h0 h1 h2 h3 h4 h5 h6 =>
      simp [calls_append, calls_loginEvents, calls_getCamerasEvents, calls_getImageEvents]
        at hmem
      subst hmem
      rw [hres] at h4
      cases h4
      rw [hitem] at h5
      cases h5
      exact ⟨by decide, ⟨[], by
        simp [calls_append, calls_loginEvents, calls_getCamerasEvents, calls_getImageEvents]⟩,
        fun hq => by
          have hlog := main_logs_camera w f fs li item r camera rest h0 h1 h2 h3 hres hitem hq
          rwa [hfmt camera] at hlog⟩
    | saved li item cams camera' rest' img h0 h1 h2 h3 h4 h5 h6 =>
      simp [calls_append, calls_loginEvents, calls_getCamerasEvents, calls_getImageEvents,
        calls_saveImageEvents] at hmem
      subst hmem
      rw [hres] at h4
      cases h4
      rw [hitem] at h5
      cases h5
      refine ⟨?_, ⟨[.saveImage f.outFile], by
        simp [calls_append, calls_loginEvents, calls_getCamerasEvents, calls_getImageEvents,
          calls_saveImageEvents]⟩, fun hq => ?_⟩
      · split <;> decide
      · have hlog := main_logs_camera w f fs li item r camera rest h0 h1 h2 h3 hres hitem hq
        rwa [hfmt camera] at hlog

/-- Witness of C2: the listing response of the demo world. -/
theorem C2_first_camera_witness :
    demoWorld.NewRequest "GET"
      (getCamerasRequest demoWorld "sess" (demoFlags "out.png" 512).cameraToken).URL = none ∧
    ((∃ cams s', getCameras demoWorld "sess" (demoFlags "out.png" 512).cameraToken
        (State.init emptyFS) = .ret (.ok cams) s') ↔
      (("ok" : String) = "ok" ∧
        1 ≤ [getCamerasResponeItem.mk "Front Door" "uuid1" "nexus.example"].length)) :=
  ⟨rfl, (C2_first_camera demoWorld (demoFlags "out.png" 512) emptyFS (State.init emptyFS) "sess"
    { StatusCode := 200, Status := "200 OK", Body := .ok "body" } "body"
    { Status := 0
      Items := [{ Name := "Front Door", UUID := "uuid1", NexusAPINestDomainHost := "nexus.example" }]
      StatusDescription := "ok", StatusDetail := "" } rfl rfl rfl rfl rfl).1⟩

/-- C3: a stage that receives a response with a status other than 200 returns the
non-200 error, whatever the body; in a run of `main`, a response with a status other than
200 is the last event of the run (no later stage is entered, nothing else happens) and the
exit status is 1; and the exit status is zero only if `login`, `getCameras`, `getImage`
and `saveImage` were entered in that order, once each, and each returned success. -/
theorem C3_non200_ends_run (w : World) (f : Flags) (fs : FS) :
    (∀ password cameraToken s resp,
      w.NewRequest "POST" (loginRequest password cameraToken).URL = none →
      w.Do (loginRequest password cameraToken) = .ok resp → resp.StatusCode ≠ 200 →
      ∃ s', login w password cameraToken s =
        .ret (.error (.Errorf "non-200 status returned by server: %s" [resp.Status])) s') ∧
    (∀ sessionToken cameraToken s resp,
      w.NewRequest "GET" (getCamerasRequest w sessionToken cameraToken).URL = none →
      w.Do (getCamerasRequest w sessionToken cameraToken) = .ok resp →
      resp.StatusCode ≠ 200 →
      ∃ s', getCameras w sessionToken cameraToken s =
        .ret (.error (.Errorf "non-200 status returned by server: %s" [resp.Status])) s') ∧
    (∀ sessionToken apiURL cameraUUID imageWidth s resp,
      w.NewRequest "GET"
        (getImageRequest sessionToken apiURL cameraUUID imageWidth).URL = none →
      w.Do (getImageRequest sessionToken apiURL cameraUUID imageWidth) = .ok resp →
      resp.StatusCode ≠ 200 →
      ∃ s', getImage w sessionToken apiURL cameraUUID imageWidth s =
        .ret (.error (.Errorf "non-200 status returned by server: %s" [resp.Status])) s') ∧
    (∀ pre post req resp,
      (main w f (State.init fs)).state.trace = pre ++ .http req (.ok resp) :: post →
      resp.StatusCode ≠ 200 →
      (main w f (State.init fs)).exitCode = 1 ∧ post = []) ∧
    ((main w f (State.init fs)).exitCode = 0 →
      ∃ li item cams camera rest img,
        calls (main w f (State.init fs)).state.trace =
          [.login f.password f.cameraToken, .getCameras item.SessionToken f.cameraToken,
            .getImage item.SessionToken camera.NexusAPINestDomainHost camera.UUID f.imageWidth,
            .saveImage f.outFile] ∧
        (∀ s, ∃ s', login w f.password f.cameraToken s = .ret (.ok li) s') ∧
        li.Items = [item] ∧
        (∀ s, ∃ s', getCameras w item.SessionToken f.cameraToken s = .ret (.ok cams) s') ∧
        cams.Items = camera :: rest ∧
        (∀ s, ∃ s', getImage w item.SessionToken camera.NexusAPINestDomainHost camera.UUID
          f.imageWidth s = .ret (.ok img) s') ∧
        (∀ s, s.fs = fs → ∃ s', saveImage w img f.outFile s = .ret none s')) := by
  refine ⟨?_, ?_, ?_, ?_, ?_⟩
  · intro password cameraToken s resp hreq hdo hne
    obtain ⟨s', hs', -⟩ := login_eq w password cameraToken s
    exact ⟨s', by rw [hs', loginResult_of_non200 w password cameraToken resp hreq hdo hne]⟩
  · intro sessionToken cameraToken s resp hreq hdo hne
    obtain ⟨s', hs', -⟩ := getCameras_eq w sessionToken cameraToken s
    exact ⟨s', by
      rw [hs', getCamerasResult_of_non200 w sessionToken cameraToken resp hreq hdo hne]⟩
  · intro sessionToken apiURL cameraUUID imageWidth s resp hreq hdo hne
    obtain ⟨s', hs', -⟩ := getImage_eq w sessionToken apiURL cameraUUID imageWidth s
    exact ⟨s', by
      rw [hs', getImageResult_of_non200 w sessionToken apiURL cameraUUID imageWidth resp hreq
        hdo hne]⟩
  · intro pre post req resp htrace hne
    obtain ⟨c, fs', t, hc, -, ht, h⟩ := main_run w f fs
    rw [ht] at htrace
    rw [hc]
    cases h with
    | noToken h0 => simp at htrace
    | badOut h0 h1 h2 => simp at htrace
    | loginFailed e h0 h1 h2 =>
      exact ⟨rfl, stage_tail _ w _ _ pre post req resp htrace⟩
    | getCamerasFailed li item e h0 h1 h2 h3 h4 =>
      obtain ⟨pre', hp⟩ := split_after_good _ _ post req resp
        (loginEvents_good w _ _ li h2) hne pre htrace
      exact ⟨rfl, stage_tail _ w _ _ pre' post req resp hp⟩
    | getImageFailed li item cams camera rest e h0 h1 h2 h3 h4 h5 h6 =>
      obtain ⟨pre', hp⟩ := split_after_good _ _ post req resp
        (good_append _ _ (loginEvents_good w _ _ li h2) (getCamerasEvents_good w _ _ cams h4))
        hne pre htrace
      exact ⟨rfl, stage_tail _ w _ _ pre' post req resp hp⟩
    | saved li item cams camera rest img h0 h1 h2 h3 h4 h5 h6 =>
      exact absurd (no_split_of_good _ pre post req resp
        (good_append _ _ (good_append _ _ (good_append _ _ (loginEvents_good w _ _ li h2)
          (getCamerasEvents_good w _ _ cams h4)) (getImageEvents_good w _ _ _ _ img h6))
          (saveImageEvents_good w fs img f.outFile)) htrace) hne
  · intro hzero
    obtain ⟨c, fs', t, hc, -, ht, h⟩ := main_run w f fs
    rw [hc] at hzero
    rw [ht]
    cases h with
    | noToken h0 => cases hzero
    | badOut h0 h1 h2 => cases hzero
    | loginFailed e h0 h1 h2 => cases hzero
    | getCamerasFailed li item e h0 h1 h2 h3 h4 => cases hzero
    | getImageFailed li item cams camera rest e h0 h1 h2 h3 h4 h5 h6 => cases hzero
    | saved li item cams camera rest img h0 h1 h2 h3 h4 h5 h6 =>
      have hsave : (saveImageResult w fs img f.outFile).1 = none := by
        by_contra hn
        rw [if_neg hn] at hzero
        cases hzero
      refine ⟨li, item, cams, camera, rest, img, ?_, fun s => ?_, h3, fun s => ?_, h5,
        fun s => ?_, fun s hs => ?_⟩
      · simp [calls_append, calls_loginEvents, calls_getCamerasEvents, calls_getImageEvents,
          calls_saveImageEvents]
      · obtain ⟨s', hs', -⟩ := login_eq w f.password f.cameraToken s
        exact ⟨s', by rw [hs', h2]⟩
      · obtain ⟨s', hs', -⟩ := getCameras_eq w item.SessionToken f.cameraToken s
        exact ⟨s', by rw [hs', h4]⟩
      · obtain ⟨s', hs', -⟩ := getImage_eq w item.SessionToken camera.NexusAPINestDomainHost
          camera.UUID f.imageWidth s
        exact ⟨s', by rw [hs', h6]⟩
      · obtain ⟨s', hs', -⟩ := saveImage_eq w img f.outFile s
        exact ⟨s', by rw [hs', hs, hsave]⟩

/-- Witness of C3: the run in the world that answers every request with 503; the response
to the login request is the last event and the exit status is 1. -/
theorem C3_non200_ends_run_witness :
    (main unavailableWorld (demoFlags "out.png" 512) (State.init emptyFS)).state.trace =
      [.call (.login "" "abc")] ++
        .http (loginRequest "" "abc")
          (.ok { StatusCode := 503, Status := "503 Service Unavailable", Body := .ok "body" }) ::
        [] ∧
    (503 : Int) ≠ 200 ∧
    (main unavailableWorld (demoFlags "out.png" 512) (State.init emptyFS)).exitCode = 1 ∧
    ([] : List Event) = [] :=
  ⟨rfl, by decide,
    (C3_non200_ends_run unavailableWorld (demoFlags "out.png" 512) emptyFS).2.2.2.1
      [.call (.login "" "abc")] [] (loginRequest "" "abc")
      { StatusCode := 503, Status := "503 Service Unavailable", Body := .ok "body" } rfl
      (by decide)⟩

/-- C4: for every configuration with a non-empty token, `main` rejects the run (non-zero
exit status and not a single event: no stage entered, no request sent) if and only if the
output path ends in neither `.png` nor `.jpeg`; `out.gif` is rejected in this way, and an
empty token is rejected in this way whatever the path. -/
theorem C4_prevalidation (w : World) (f : Flags) (fs : FS) :
    (f.cameraToken ≠ "" →
      (((main w f (State.init fs)).exitCode ≠ 0 ∧ (main w f (State.init fs)).state.trace = []) ↔
        (HasSuffix f.outFile ".png" = false ∧ HasSuffix f.outFile ".jpeg" = false))) ∧
    (f.cameraToken ≠ "" → f.outFile = "out.gif" →
      (main w f (State.init fs)).exitCode = 1 ∧ (main w f (State.init fs)).state.trace = []) ∧
    (f.cameraToken = "" →
      (main w f (State.init fs)).exitCode = 1 ∧ (main w f (State.init fs)).state.trace = []) := by
  obtain ⟨c, fs', t, hc, -, ht, h⟩ := main_run w f fs
  rw [hc, ht]
  have hgif : HasSuffix "out.gif" ".png" = false ∧ HasSuffix "out.gif" ".jpeg" = false :=
    ⟨by decide, by decide⟩
  cases h with
  | noToken h0 => simp [h0]
  | badOut h0 h1 h2 =>
    refine ⟨fun _ => by simp [h1, h2], fun _ _ => by simp, fun _ => by simp⟩
  | loginFailed e h0 h1 h2 =>
    refine ⟨fun _ => ?_, fun _ hg => ?_, fun hh => absurd hh h0⟩
    · constructor
      · rintro ⟨-, hnil⟩
        simp [loginEvents] at hnil
      · rintro ⟨a, b⟩
        simp [a, b] at h1
    · rw [hg, hgif.1, hgif.2] at h1
      simp at h1
  | getCamerasFailed li item e h0 h1 h2 h3 h4 =>
    refine ⟨fun _ => ?_, fun _ hg => ?_, fun hh => absurd hh h0⟩
    · constructor
      · rintro ⟨-, hnil⟩
        simp [loginEvents] at hnil
      · rintro ⟨a, b⟩
        simp [a, b] at h1
    · rw [hg, hgif.1, hgif.2] at h1
      simp at h1
  | getImageFailed li item cams camera rest e h0 h1 h2 h3 h4 h5 h6 =>
    refine ⟨fun _ => ?_, fun _ hg => ?_, fun hh => absurd hh h0⟩
    · constructor
      · rintro ⟨-, hnil⟩
        simp [loginEvents] at hnil
      · rintro ⟨a, b⟩
        simp [a, b] at h1
    · rw [hg, hgif.1, hgif.2] at h1
      simp at h1
  | saved li item cams camera rest img h0 h1 h2 h3 h4 h5 h6 =>
    refine ⟨fun _ => ?_, fun _ hg => ?_, fun hh => absurd hh h0⟩
    · constructor
      · rintro ⟨-, hnil⟩
        simp [loginEvents] at hnil
      · rintro ⟨a, b⟩
        simp [a, b] at h1
    · rw [hg, hgif.1, hgif.2] at h1
      simp at h1

/-- Witness of C4: token `abc` with output path `out.gif` in the demo world. -/
theorem C4_prevalidation_witness :
    (demoFlags "out.gif" 512).cameraToken ≠ "" ∧ (demoFlags "out.gif" 512).outFile = "out.gif" ∧
    (main demoWorld (demoFlags "out.gif" 512) (State.init emptyFS)).exitCode = 1 ∧
    (main demoWorld (demoFlags "out.gif" 512) (State.init emptyFS)).state.trace = [] :=
  ⟨by decide, rfl,
    (C4_prevalidation demoWorld (demoFlags "out.gif" 512) emptyFS).2.1 (by decide) rfl⟩

/-- C5 (as amended): for every access token and password made only of characters that
need no form-escaping, the body of the login request is `token=<AccessToken>` when the
password is empty and `password=<Password>&token=<AccessToken>` when it is not: the fields
come in the sorted key order of `url.Values.Encode`, the password field first. -/
theorem C5_login_body (password cameraToken : String)
    (ht : ∀ c ∈ cameraToken.data, shouldEscape c = false)
    (hp : ∀ c ∈ password.data, shouldEscape c = false) :
    (loginRequest password cameraToken).Body =
      some (if password = "" then "token=" ++ cameraToken
        else "password=" ++ password ++ "&token=" ++ cameraToken) := by
  have e1 : QueryEscape "token" = "token" := by decide
  have e2 : QueryEscape "password" = "password" := by decide
  have e3 : sortKeys ["password", "token"] = ["password", "token"] := by decide
  have e4 : sortKeys ["token"] = ["token"] := by decide
  by_cases h : password = ""
  · subst h
    simp [loginRequest, loginFormData, Values.Encode, e1, e4, QueryEscape_id _ ht, List.lookup]
  · simp [loginRequest, loginFormData, Values.Encode, Values.set, h, e1, e2, e3,
      QueryEscape_id _ ht, QueryEscape_id _ hp, List.lookup]
    have h0 : 0 < "password=".length := by decide
    simp only [h0, true_or, if_true]
    apply String.ext
    simp only [String.data_append, List.append_assoc]
    rfl

/-- Witness of C5: token `abc` with password `pw`. -/
theorem C5_login_body_witness :
    (∀ c ∈ "abc".data, shouldEscape c = false) ∧ (∀ c ∈ "pw".data, shouldEscape c = false) ∧
    (loginRequest "pw" "abc").Body =
      some (if "pw" = "" then "token=" ++ "abc" else "password=" ++ "pw" ++ "&token=" ++ "abc") :=
  ⟨by decide, by decide, C5_login_body "pw" "abc" (by decide) (by decide)⟩

/-- C5 as stated fails: with token `abc` and password `pw`, neither needing escaping, the
body is `password=pw&token=abc`, not `token=abc&password=pw`. -/
theorem C5_counterexample :
    (∀ c ∈ "abc".data, shouldEscape c = false) ∧ (∀ c ∈ "pw".data, shouldEscape c = false) ∧
    "pw" ≠ "" ∧
    (loginRequest "pw" "abc").Body = some "password=pw&token=abc" ∧
    (loginRequest "pw" "abc").Body ≠ some "token=abc&password=pw" := by
  refine ⟨by decide, by decide, by decide, by decide, by decide⟩

/-- C6 (as amended): `main` does not validate the width.  For every configuration with a
non-empty token and an output path ending in `.png` or `.jpeg`, whatever the width (zero
and negative widths included), `main` enters `login`; and every width passed to `getImage`
is the configured width, unchanged. -/
theorem C6_width_passed_through (w : World) (f : Flags) (fs : FS) :
    (f.cameraToken ≠ "" →
      (HasSuffix f.outFile ".png" = true ∨ HasSuffix f.outFile ".jpeg" = true) →
      ∃ rest, calls (main w f (State.init fs)).state.trace =
        .login f.password f.cameraToken :: rest) ∧
    (∀ sessionToken apiURL cameraUUID imageWidth,
      Call.getImage sessionToken apiURL cameraUUID imageWidth ∈
        calls (main w f (State.init fs)).state.trace → imageWidth = f.imageWidth) := by
  obtain ⟨c, fs', t, -, -, ht, h⟩ := main_run w f fs
  rw [ht]
  cases h with
  | noToken h0 => exact ⟨fun hh => absurd h0 hh, by simp [calls]⟩
  | badOut h0 h1 h2 =>
    refine ⟨fun _ hh => ?_, by simp [calls]⟩
    simp [h1, h2] at hh
  | loginFailed e h0 h1 h2 =>
    simp [calls_loginEvents]
  | getCamerasFailed li item e h0 h1 h2 h3 h4 =>
    simp [calls_append, calls_loginEvents, calls_getCamerasEvents]
  | getImageFailed li item cams camera rest e h0 h1 h2 h3 h4 h5 h6 =>
    simp [calls_append, calls_loginEvents, calls_getCamerasEvents, calls_getImageEvents]
  | saved li item cams camera rest img h0 h1 h2 h3 h4 h5 h6 =>
    simp [calls_append, calls_loginEvents, calls_getCamerasEvents, calls_getImageEvents,
      calls_saveImageEvents]

/-- Witness of C6: width 0 in the demo world. -/
theorem C6_width_passed_through_witness :
    (demoFlags "out.png" 0).cameraToken ≠ "" ∧
    (HasSuffix (demoFlags "out.png" 0).outFile ".png" = true ∨
      HasSuffix (demoFlags "out.png" 0).outFile ".jpeg" = true) ∧
    ∃ rest, calls (main demoWorld (demoFlags "out.png" 0) (State.init emptyFS)).state.trace =
      .login (demoFlags "out.png" 0).password (demoFlags "out.png" 0).cameraToken :: rest :=
  ⟨by decide, by decide,
    (C6_width_passed_through demoWorld (demoFlags "out.png" 0) emptyFS).1 (by decide)
      (by decide)⟩

/-- C6 as stated fails: with width 0, and with width -5, the run in the demo world is not
rejected; all four stages run, `getImage` is called with that width, and the exit status
is zero. -/
theorem C6_counterexample :
    (calls (main demoWorld (demoFlags "out.png" 0) (State.init emptyFS)).state.trace =
      [.login "" "abc", .getCameras "sess" "abc", .getImage "sess" "nexus.example" "uuid1" 0,
        .saveImage "out.png"] ∧
      (main demoWorld (demoFlags "out.png" 0) (State.init emptyFS)).exitCode = 0) ∧
    (calls (main demoWorld (demoFlags "out.png" (-5)) (State.init emptyFS)).state.trace =
      [.login "" "abc", .getCameras "sess" "abc",
        .getImage "sess" "nexus.example" "uuid1" (-5), .saveImage "out.png"] ∧
      (main demoWorld (demoFlags "out.png" (-5)) (State.init emptyFS)).exitCode = 0) := by
  refine ⟨⟨by decide, by decide⟩, ⟨by decide, by decide⟩⟩

/-- C7 (as amended): `login` surfaces a non-200 status as an error of one kind (template
`non-200 status returned by server: %s`) and an unexpected body as an error of another kind
(template `got unexpected json response from server: %+v`); a status description other than
"ok" and an item count other than 1 are surfaced as that same second kind, told apart only
by the echoed response. -/
theorem C7_login_error_kinds (w : World) (password cameraToken : String) (s : State)
    (resp : Response)
    (hreq : w.NewRequest "POST" (loginRequest password cameraToken).URL = none)
    (hdo : w.Do (loginRequest password cameraToken) = .ok resp) :
    (resp.StatusCode ≠ 200 →
      errorKind (login w password cameraToken s) =
        some "non-200 status returned by server: %s") ∧
    (∀ respRaw r, resp.StatusCode = 200 → resp.Body = .ok respRaw →
      w.UnmarshalLogin respRaw = .ok r →
      (r.StatusDescription ≠ "ok" ∨ r.Items.length ≠ 1) →
      errorKind (login w password cameraToken s) =
        some "got unexpected json response from server: %+v") ∧
    "non-200 status returned by server: %s" ≠
      "got unexpected json response from server: %+v" := by
  obtain ⟨s', hs', -⟩ := login_eq w password cameraToken s
  refine ⟨fun hne => ?_, fun respRaw r h200 hbody hjson hbad => ?_, by decide⟩
  · rw [hs', loginResult_of_non200 w password cameraToken resp hreq hdo hne]
    rfl
  · rw [hs', loginResult_of_200 w password cameraToken resp respRaw r hreq hdo h200 hbody hjson,
      if_pos hbad]
    rfl

/-- Witness of C7: the login response with status 503. -/
theorem C7_login_error_kinds_witness :
    unavailableWorld.NewRequest "POST" (loginRequest "" "abc").URL = none ∧
    errorKind (login unavailableWorld "" "abc" (State.init emptyFS)) =
      some "non-200 status returned by server: %s" :=
  ⟨rfl, (C7_login_error_kinds unavailableWorld "" "abc" (State.init emptyFS)
    { StatusCode := 503, Status := "503 Service Unavailable", Body := .ok "body" } rfl rfl).1
    (by decide)⟩

/-- C7 as stated fails: the error of `login` for a 200 response with status description
"ok" and zero items, and its error for a 200 response with one item and status description
"denied", are of the same kind. -/
theorem C7_counterexample :
    (zeroItemsWorld.UnmarshalLogin "body").toOption.map
        (fun r => (r.StatusDescription, r.Items.length)) = some ("ok", 0) ∧
    (badStatusWorld.UnmarshalLogin "body").toOption.map
        (fun r => (r.StatusDescription, r.Items.length)) = some ("denied", 1) ∧
    errorKind (login zeroItemsWorld "" "abc" (State.init emptyFS)) =
      some "got unexpected json response from server: %+v" ∧
    errorKind (login badStatusWorld "" "abc" (State.init emptyFS)) =
      some "got unexpected json response from server: %+v" ∧
    errorKind (login zeroItemsWorld "" "abc" (State.init emptyFS)) =
      errorKind (login badStatusWorld "" "abc" (State.init emptyFS)) := by
  refine ⟨by decide, by decide, by decide, by decide, by decide⟩

/-- C8 (as amended): for every run that ends in failure, the file system after the run
equals the file system before it unless the failure is inside `saveImage` after `os.Create`
succeeded: it is unchanged when `saveImage` was not entered, and when `os.Create` failed,
and in any case at every path other than the output path.  When every listing has zero
items, the run fails and the file system is unchanged. -/
theorem C8_failure_leaves_files (w : World) (f : Flags) (fs : FS) :
    ((main w f (State.init fs)).exitCode ≠ 0 →
      (Call.saveImage f.outFile ∉ calls (main w f (State.init fs)).state.trace →
        (main w f (State.init fs)).state.fs = fs) ∧
      (w.Create fs f.outFile ≠ none → (main w f (State.init fs)).state.fs = fs) ∧
      (∀ p, p ≠ f.outFile → (main w f (State.init fs)).state.fs p = fs p)) ∧
    ((∀ respRaw r, w.UnmarshalCameras respRaw = .ok r → r.Items = []) →
      (main w f (State.init fs)).exitCode ≠ 0 ∧ (main w f (State.init fs)).state.fs = fs) := by
  obtain ⟨c, fs', t, hc, hfs, ht, h⟩ := main_run w f fs
  rw [hc, hfs, ht]
  cases h with
  | noToken h0 => simp
  | badOut h0 h1 h2 => simp
  | loginFailed e h0 h1 h2 => simp
  | getCamerasFailed li item e h0 h1 h2 h3 h4 => simp
  | getImageFailed li item cams camera rest e h0 h1 h2 h3 h4 h5 h6 => simp
  | saved li item cams camera rest img h0 h1 h2 h3 h4 h5 h6 =>
    refine ⟨fun _ => ⟨fun hn => ?_, fun hcr => ?_, fun p hp => ?_⟩, fun hz => ?_⟩
    · exfalso
      apply hn
      simp [calls_append, calls_saveImageEvents]
    · exact saveImageResult_fs_of_create_error w fs img f.outFile hcr
    · exact saveImageResult_fs_other w fs img f.outFile p hp
    · exfalso
      obtain ⟨-, resp, respRaw, -, -, -, hu, -, hlen⟩ := getCamerasResult_ok w _ _ cams h4
      rw [hz respRaw cams hu] at hlen
      simp at hlen

/-- Witness of C8: the run in the world with a listing of zero cameras. -/
theorem C8_failure_leaves_files_witness :
    (∀ respRaw r, noCameraWorld.UnmarshalCameras respRaw = .ok r → r.Items = []) ∧
    (main noCameraWorld (demoFlags "out.png" 512) (State.init emptyFS)).exitCode ≠ 0 ∧
    (main noCameraWorld (demoFlags "out.png" 512) (State.init emptyFS)).state.fs = emptyFS :=
  ⟨fun _ r h => by cases h; rfl,
    (C8_failure_leaves_files noCameraWorld (demoFlags "out.png" 512) emptyFS).2
      (fun _ r h => by cases h; rfl)⟩

/-- C8 as stated fails: when the PNG encoder fails, the run ends in failure (exit status 1)
and the output path, absent before the run, exists after it with empty contents. -/
theorem C8_counterexample :
    (main encodeFailWorld (demoFlags "out.png" 512) (State.init emptyFS)).exitCode = 1 ∧
    emptyFS "out.png" = none ∧
    (main encodeFailWorld (demoFlags "out.png" 512) (State.init emptyFS)).state.fs "out.png" =
      some "" ∧
    (main encodeFailWorld (demoFlags "out.png" 512) (State.init emptyFS)).state.fs ≠ emptyFS := by
  refine ⟨by decide, by decide, by decide, fun h => ?_⟩
  have h2 := congrFun h "out.png"
  revert h2
  decide

/-- C9 (as amended): for every message, every non-empty detail and every `fatal`: with
`quiet` off and `debug` on, `logError` prints exactly `[ERROR]: <msg> - <detail>` and a
newline; with `quiet` off and `debug` off it prints exactly `[ERROR]: <msg>` and a newline,
whatever the detail; with `quiet` on it prints nothing, in either debug mode. -/
theorem C9_logError_report (msg debugMsg : String) (fatal : Bool) (s : State)
    (hm : debugMsg ≠ "") :
    (s.quiet = false → s.debug = true →
      (logError msg debugMsg fatal s).state.stdout =
        s.stdout ++ ["[ERROR]: " ++ msg ++ " - " ++ debugMsg ++ "\n"]) ∧
    (s.quiet = false → s.debug = false →
      (logError msg debugMsg fatal s).state.stdout = s.stdout ++ ["[ERROR]: " ++ msg ++ "\n"]) ∧
    (s.quiet = true → (logError msg debugMsg fatal s).state.stdout = s.stdout) := by
  have e : Sprintf "[ERROR]: %s - %s\n" [msg, debugMsg] =
      "[ERROR]: " ++ msg ++ " - " ++ debugMsg ++ "\n" := by
    apply String.ext
    simp only [String.data_append, List.append_assoc]
    rfl
  have e' : Sprintf "[ERROR]: %s\n" [msg] = "[ERROR]: " ++ msg ++ "\n" := by
    apply String.ext
    simp only [String.data_append, List.append_assoc]
    rfl
  refine ⟨fun hq hd => ?_, fun hq hd => ?_, fun hq => ?_⟩
  · cases fatal <;>
      simp [logError, Proc.bind_apply, Proc.pure_apply, Proc.ite_apply, getState, hd, hq, hm,
        Printf, osExit, Result.state, e]
  · cases fatal <;>
      simp [logError, Proc.bind_apply, Proc.pure_apply, Proc.ite_apply, getState, hd, hq,
        Printf, osExit, Result.state, e']
  · cases fatal <;>
      simp [logError, Proc.bind_apply, Proc.pure_apply, Proc.ite_apply, getState, hq,
        Printf, osExit, Result.state]

/-- Witness of C9: message `m`, detail `d`, debug on, quiet off. -/
theorem C9_logError_report_witness :
    "d" ≠ "" ∧
    (logError "m" "d" true ⟨true, false, [], emptyFS, []⟩).state.stdout =
      [] ++ ["[ERROR]: " ++ "m" ++ " - " ++ "d" ++ "\n"] :=
  ⟨by decide, (C9_logError_report "m" "d" true ⟨true, false, [], emptyFS, []⟩ (by decide)).1
    rfl rfl⟩

/-- C9 as stated fails: with debug on and quiet on, a non-empty detail and a message,
`logError` prints nothing, so not the line `[ERROR]: m - d`. -/
theorem C9_counterexample :
    "d" ≠ "" ∧
    (logError "m" "d" true ⟨true, true, [], emptyFS, []⟩).state.stdout = [] ∧
    (logError "m" "d" true ⟨true, true, [], emptyFS, []⟩).state.stdout ≠ ["[ERROR]: m - d\n"] := by
  refine ⟨by decide, by decide, by decide⟩

/-- C10 (as amended): no path ends in both `.png` and `.jpeg`.  Once `os.Create` has
succeeded, `saveImage` returns and what it does is determined by the suffix alone: on a
path ending in `.png` it runs `png.Encode` (its bytes are the file, its error the result),
on a path ending in `.jpeg` it runs `jpeg.Encode` likewise, and otherwise it encodes
nothing and returns the unrecognized-image-type error, which it returns in no other case.
When `os.Create` fails, `saveImage` returns that error whatever the suffix, encodes
nothing and leaves the file system as it was.  For a path that passes the check of `main`,
`saveImage` never returns the unrecognized-image-type error. -/
theorem C10_format_from_suffix (w : World) (img : Image) (outFile : String) (s : State) :
    ¬(HasSuffix outFile ".png" = true ∧ HasSuffix outFile ".jpeg" = true) ∧
    (w.Create s.fs outFile = none →
      ∃ r s' t, saveImage w img outFile s = .ret r s' ∧ s'.trace = s.trace ++ t ∧
        (HasSuffix outFile ".png" = true →
          encodings t = [.PNG] ∧ r = (w.pngEncode img).2.map .lib ∧
          s'.fs outFile = some (w.pngEncode img).1) ∧
        (HasSuffix outFile ".jpeg" = true →
          encodings t = [.JPEG] ∧ r = (w.jpegEncode img).2.map .lib ∧
          s'.fs outFile = some (w.jpegEncode img).1) ∧
        ((HasSuffix outFile ".png" = false ∧ HasSuffix outFile ".jpeg" = false) →
          encodings t = [] ∧ s'.fs outFile = some "") ∧
        (encodings t = [.PNG] ↔ HasSuffix outFile ".png" = true) ∧
        (encodings t = [.JPEG] ↔ HasSuffix outFile ".jpeg" = true) ∧
        (r = some (.Errorf "unrecognized image type for file %s" [outFile]) ↔
          (HasSuffix outFile ".png" = false ∧ HasSuffix outFile ".jpeg" = false))) ∧
    (∀ err, w.Create s.fs outFile = some err →
      ∃ s' t, saveImage w img outFile s = .ret (some (.lib err)) s' ∧
        s'.trace = s.trace ++ t ∧ encodings t = [] ∧ s'.fs = s.fs) ∧
    ((!HasSuffix outFile ".png" && !HasSuffix outFile ".jpeg") = false →
      ∃ r s', saveImage w img outFile s = .ret r s' ∧
        r ≠ some (.Errorf "unrecognized image type for file %s" [outFile])) := by
  have hnb := not_both_suffixes outFile
  obtain ⟨s', hs', hfs, -, -, htr⟩ := saveImage_eq w img outFile s
  refine ⟨hnb, fun hcr => ⟨_, s', _, hs', htr, ?_⟩, fun err hcr => ⟨s', _, ?_, htr, ?_, ?_⟩,
    fun hv => ⟨_, s', hs', ?_⟩⟩
  · rw [hfs]
    cases hp : HasSuffix outFile ".png" <;> cases hj : HasSuffix outFile ".jpeg"
    · simp [saveImageResult, hcr, hp, hj, encodings, FS.write]
    · cases he : (w.jpegEncode img).2 <;>
        simp [saveImageResult, hcr, hp, hj, encodings, he, FS.write]
    · cases he : (w.pngEncode img).2 <;>
        simp [saveImageResult, hcr, hp, hj, encodings, he, FS.write]
    · exact absurd ⟨hp, hj⟩ hnb
  · rw [hs']
    simp [saveImageResult, hcr]
  · simp [saveImageResult, hcr, encodings]
  · rw [hfs]
    simp [saveImageResult, hcr]
  · cases hp : HasSuffix outFile ".png" <;> cases hj : HasSuffix outFile ".jpeg"
    · simp [hp, hj] at hv
    · cases hcr : w.Create s.fs outFile <;> cases he : (w.jpegEncode img).2 <;>
        simp [saveImageResult, hcr, hp, hj, he]
    · cases hcr : w.Create s.fs outFile <;> cases he : (w.pngEncode img).2 <;>
        simp [saveImageResult, hcr, hp, hj, he]
    · exact absurd ⟨hp, hj⟩ hnb

/-- Witness of C10: the path `out.png` in the demo world, where `os.Create` succeeds; the
PNG encoder runs, its bytes are the file and there is no error. -/
theorem C10_format_from_suffix_witness :
    demoWorld.Create (State.init emptyFS).fs "out.png" = none ∧
    HasSuffix "out.png" ".png" = true ∧
    ∃ r s' t, saveImage demoWorld ⟨1, 1, [0]⟩ "out.png" (State.init emptyFS) = .ret r s' ∧
      encodings t = [.PNG] ∧ r = none ∧ s'.fs "out.png" = some "PNG" := by
  refine ⟨rfl, by decide, ?_⟩
  obtain ⟨r, s', t, h, -, hpng, -⟩ :=
    (C10_format_from_suffix demoWorld ⟨1, 1, [0]⟩ "out.png" (State.init emptyFS)).2.1 rfl
  obtain ⟨h1, h2, h3⟩ := hpng (by decide)
  exact ⟨r, s', t, h, h1, h2, h3⟩

/-- C10 as stated fails: when `os.Create` fails, `saveImage` on `nodir/out.gif`, which ends
in neither `.png` nor `.jpeg`, returns the error of `os.Create` and not the
unrecognized-image-type error; and on `nodir/out.png`, which ends in `.png`, it encodes
nothing. -/
theorem C10_counterexample :
    HasSuffix "nodir/out.gif" ".png" = false ∧ HasSuffix "nodir/out.gif" ".jpeg" = false ∧
    (saveImage createFailWorld ⟨1, 1, [0]⟩ "nodir/out.gif" (State.init emptyFS)).value =
      some (some (.lib "open nodir/out.gif: no such file or directory")) ∧
    (saveImage createFailWorld ⟨1, 1, [0]⟩ "nodir/out.gif" (State.init emptyFS)).value ≠
      some (some (.Errorf "unrecognized image type for file %s" ["nodir/out.gif"])) ∧
    HasSuffix "nodir/out.png" ".png" = true ∧
    encodings
      (saveImage createFailWorld ⟨1, 1, [0]⟩ "nodir/out.png" (State.init emptyFS)).state.trace =
      [] := by
  refine ⟨by decide, by decide, by decide, by decide, by decide, by decide⟩

end Nest2img
